import Mathlib

/-!
Shallow embedding of the adaptive density-control subsystem of
`scene/gaussian_model.py` (class `GaussianModel`): the primitive store's
parallel attribute arrays, the optimizer moment buffers kept in lock-step
with them, the clone/split/prune operations, the gradient-mask hook
bookkeeping, and the PLY save/load round trip.

Tensors of shape `(N, ...)` become Lean lists of per-row values; machine
floats become `ℚ` (the claims under study are about bookkeeping, shapes
and exact value propagation, not rounding).  The activation functions the
source installs in `setup_functions` (`torch.exp`, `torch.log`,
`torch.sigmoid`, `normalize`, the covariance builder) and the random
sampling in `densify_and_split` are opaque to every claim, so they are
passed in as an explicit record `Act` of function parameters / a sampling
oracle, exactly where the source reads `self.scaling_activation` etc.
Python `assert` failures and raised errors become `Except.error`.
-/

/-- A row of a `(N, 3)` tensor. -/
abbrev V3 : Type := ℚ × ℚ × ℚ

/-- A row of a `(N, 4)` tensor (quaternion). -/
abbrev V4 : Type := ℚ × ℚ × ℚ × ℚ

def v3zero : V3 := (0, 0, 0)

def mapV3 (f : ℚ → ℚ) (v : V3) : V3 := (f v.1, f v.2.1, f v.2.2)

def addV3 (a b : V3) : V3 := (a.1 + b.1, a.2.1 + b.2.1, a.2.2 + b.2.2)

/-- Componentwise projection out of a `V3` (flattening helper). -/
def proj3 (i : Nat) (v : V3) : ℚ :=
  match i with
  | 0 => v.1
  | 1 => v.2.1
  | _ => v.2.2

/-- Componentwise projection out of a `V4` (flattening helper). -/
def proj4 (i : Nat) (v : V4) : ℚ :=
  match i with
  | 0 => v.1
  | 1 => v.2.1
  | 2 => v.2.2.1
  | _ => v.2.2.2

/-- `torch.max(t, dim=1).values` for one row of a `(N, 3)` tensor. -/
def vmax3 (v : V3) : ℚ := max v.1 (max v.2.1 v.2.2)

/-- Boolean-mask indexing `t[mask]`: keep the rows at the `true`
positions, in order.  (torch additionally requires
`mask.length = t.length`; theorems carry that as a hypothesis.) -/
def boolFilter (xs : List α) (m : List Bool) : List α :=
  (List.zip xs m).filterMap (fun p => if p.2 then some p.1 else none)

/-- Number of `true` entries strictly before index `i` — the position a
surviving row `i` occupies after boolean-mask indexing. -/
def ctb (m : List Bool) (i : Nat) : Nat := (m.take i).count true

/-- `(List.replicate n xs).join`: `torch.Tensor.repeat(n, 1)` tiling of
the whole row list `n` times along dim 0. -/
def repTile (n : Nat) (xs : List α) : List α := (List.replicate n xs).flatten

/-- Three-list `zipWith` (truncating at the shortest list). -/
def zipW3 (f : α → β → γ → δ) : List α → List β → List γ → List δ
  | a :: as_, b :: bs, c :: cs => f a b c :: zipW3 f as_ bs cs
  | _, _, _ => []

/-- The activation functions that `setup_functions` installs on the model,
plus the two numeric collaborators that claims treat as opaque:
`covRow` is `build_covariance_from_scaling_rotation` on one row
(arguments: scaling modifier, activated scaling row, raw rotation row),
and `rotApply` is `build_rotation` followed by the batched matrix-vector
product in `densify_and_split`. -/
structure Act where
  exp : ℚ → ℚ
  log : ℚ → ℚ
  sigmoid : ℚ → ℚ
  normalize : V4 → V4
  covRow : ℚ → V3 → V4 → V3 × V3
  rotApply : V4 → V3 → V3

/-- zeros_like: a zero value of the same shape as a given row. -/
class ZLike (α : Type) where
  zl : α → α

instance : ZLike ℚ := ⟨fun _ => 0⟩

instance [ZLike α] [ZLike β] : ZLike (α × β) :=
  ⟨fun p => (ZLike.zl p.1, ZLike.zl p.2)⟩

instance [ZLike α] : ZLike (List α) := ⟨fun l => l.map ZLike.zl⟩

/-- Adam's per-parameter state: first and second moment buffers
(`exp_avg`, `exp_avg_sq`), one row per primitive. -/
structure ParamMoments (α : Type) where
  exp_avg : List α
  exp_avg_sq : List α
deriving DecidableEq

/-- The optimizer's stored state for the six parameter groups
(`None` before the first Adam step on that group, as in
`self.optimizer.state.get(..., None)`). -/
structure OptState where
  xyz : Option (ParamMoments V3)
  f_dc : Option (ParamMoments (List V3))
  f_rest : Option (ParamMoments (List V3))
  opacity : Option (ParamMoments ℚ)
  scaling : Option (ParamMoments V3)
  rotation : Option (ParamMoments V4)
deriving DecidableEq

/-- `cat_tensors_to_optimizer` on one group's stored state: append
`zeros_like(extension_tensor)` rows to both moment buffers (no-op when the
group has no stored state yet). -/
def momCat [ZLike α] (m : Option (ParamMoments α)) (ext : List α) :
    Option (ParamMoments α) :=
  m.map (fun s =>
    ⟨s.exp_avg ++ ext.map ZLike.zl, s.exp_avg_sq ++ ext.map ZLike.zl⟩)

/-- `_prune_optimizer` on one group's stored state: boolean-mask both
moment buffers with the keep mask. -/
def momFilter (m : Option (ParamMoments α)) (keep : List Bool) :
    Option (ParamMoments α) :=
  m.map (fun s => ⟨boolFilter s.exp_avg keep, boolFilter s.exp_avg_sq keep⟩)

/-- The `GaussianModel` store.  `μ` is the element type of `self.mask`:
`Bool` in ordinary operation, `ℚ` while the field still holds the
real-valued attention weights (first densification cycle).

Tensor identity matters for the gradient hooks: `register_hook` attaches
a hook to the current parameter tensors, and every structural edit
(`prune_points`, `cat_tensors_to_optimizer`, `load_ply`) wraps the data in
brand-new `nn.Parameter` tensors carrying no hooks.  `tensorHooks` is the
list of hook ids currently attached to each attribute tensor
(`apply_grad_mask` attaches one hook per attribute, identically across
the six attributes, so one list represents all six), `hooksAttr` is the
`self.hooks` attribute (the handles of the most recent `apply_grad_mask`,
or `none` after `del self.hooks` / before the first install), and
`hookGen` is a fresh-id counter. -/
structure GStore (μ : Type) where
  xyz : List V3
  features_dc : List (List V3)
  features_rest : List (List V3)
  scaling : List V3
  rotation : List V4
  opacity : List ℚ
  max_radii2D : List ℚ
  xyz_gradient_accum : List ℚ
  denom : List ℚ
  mask : List μ
  densi_mask : List Bool
  opt : OptState
  percent_dense : ℚ
  localize : Bool
  active_sh_degree : Nat
  max_sh_degree : Nat
  hookGen : Nat
  hooksAttr : Option Nat
  tensorHooks : List Nat
deriving DecidableEq

/-- Copy every field of a store but install a (possibly differently
typed) mask — `self.mask = m` where the element type changes. -/
def retypeMask (g : GStore μ) (m : List ν) : GStore ν :=
  { xyz := g.xyz, features_dc := g.features_dc,
    features_rest := g.features_rest, scaling := g.scaling,
    rotation := g.rotation, opacity := g.opacity,
    max_radii2D := g.max_radii2D,
    xyz_gradient_accum := g.xyz_gradient_accum, denom := g.denom,
    mask := m, densi_mask := g.densi_mask, opt := g.opt,
    percent_dense := g.percent_dense, localize := g.localize,
    active_sh_degree := g.active_sh_degree,
    max_sh_degree := g.max_sh_degree, hookGen := g.hookGen,
    hooksAttr := g.hooksAttr, tensorHooks := g.tensorHooks }

/-- `get_xyz`: restricted to mask-true rows when `localize` is set. -/
def get_xyz (g : GStore Bool) : List V3 :=
  if g.localize then boolFilter g.xyz g.mask else g.xyz

/-- `get_scaling`: `scaling_activation` (exp, componentwise) of the raw
scaling, restricted to mask-true rows when `localize` is set. -/
def get_scaling (A : Act) (g : GStore Bool) : List V3 :=
  if g.localize then (boolFilter g.scaling g.mask).map (mapV3 A.exp)
  else g.scaling.map (mapV3 A.exp)

/-- `get_rotation`: `rotation_activation` (normalize) of the raw
rotation, restricted to mask-true rows when `localize` is set. -/
def get_rotation (A : Act) (g : GStore Bool) : List V4 :=
  if g.localize then (boolFilter g.rotation g.mask).map A.normalize
  else g.rotation.map A.normalize

/-- `get_opacity`: `opacity_activation` (sigmoid) of the raw opacity,
restricted to mask-true rows when `localize` is set. -/
def get_opacity (A : Act) (g : GStore Bool) : List ℚ :=
  if g.localize then (boolFilter g.opacity g.mask).map A.sigmoid
  else g.opacity.map A.sigmoid

/-- `get_features`: `torch.cat((features_dc, features_rest), dim=1)` —
rowwise concatenation along the SH-coefficient dimension, restricted to
mask-true rows when `localize` is set. -/
def get_features (g : GStore Bool) : List (List V3) :=
  if g.localize then
    List.zipWith (· ++ ·) (boolFilter g.features_dc g.mask)
      (boolFilter g.features_rest g.mask)
  else List.zipWith (· ++ ·) g.features_dc g.features_rest

/-- Boolean-mask indexing as torch performs it: an `IndexError` unless
the mask's length equals the indexed dimension. -/
def tIndex (xs : List α) (m : List Bool) : Except String (List α) :=
  if m.length = xs.length then .ok (boolFilter xs m)
  else .error "IndexError: boolean index shape mismatch"

/-- `get_covariance`: in the `localize` branch the source indexes
`self.get_scaling` — already mask-restricted — by `self.mask` again, and
also indexes `self._rotation` by `self.mask`; outside it, the covariance
of every row from the activated scaling and raw rotation. -/
def get_covariance (A : Act) (g : GStore Bool) (mod : ℚ) :
    Except String (List (V3 × V3)) :=
  if g.localize then do
    let s ← tIndex (get_scaling A g) g.mask
    let r ← tIndex g.rotation g.mask
    .ok (List.zipWith (A.covRow mod) s r)
  else .ok (List.zipWith (A.covRow mod) (get_scaling A g) g.rotation)

/-- `_prune_optimizer`: filter both moment buffers of every group by the
keep mask (the parameter tensors themselves live in the store's attribute
fields and are filtered by `prune_points`). -/
def optFilter (o : OptState) (keep : List Bool) : OptState :=
  { xyz := momFilter o.xyz keep, f_dc := momFilter o.f_dc keep,
    f_rest := momFilter o.f_rest keep, opacity := momFilter o.opacity keep,
    scaling := momFilter o.scaling keep,
    rotation := momFilter o.rotation keep }

/-- One batch of new rows for every attribute array, i.e. the
`tensors_dict` handed to `cat_tensors_to_optimizer`. -/
structure Batch where
  xyz : List V3
  f_dc : List (List V3)
  f_rest : List (List V3)
  opacity : List ℚ
  scaling : List V3
  rotation : List V4
deriving DecidableEq

/-- `cat_tensors_to_optimizer` on the stored states: append zero moment
rows shaped like each group's extension tensor. -/
def optCat (o : OptState) (b : Batch) : OptState :=
  { xyz := momCat o.xyz b.xyz, f_dc := momCat o.f_dc b.f_dc,
    f_rest := momCat o.f_rest b.f_rest, opacity := momCat o.opacity b.opacity,
    scaling := momCat o.scaling b.scaling,
    rotation := momCat o.rotation b.rotation }

/-- `prune_points(mask)`: rows where `mask` is true are dropped
(`valid_points_mask = ~mask` is kept) from every attribute array, every
moment buffer, the auxiliary arrays and `self.mask`.  The surviving data
is wrapped in fresh `nn.Parameter` tensors, so no gradient hooks remain
attached to the live tensors afterwards. -/
def prune_points (g : GStore μ) (m : List Bool) : GStore μ :=
  let keep := m.map not
  { g with
    xyz := boolFilter g.xyz keep,
    features_dc := boolFilter g.features_dc keep,
    features_rest := boolFilter g.features_rest keep,
    opacity := boolFilter g.opacity keep,
    scaling := boolFilter g.scaling keep,
    rotation := boolFilter g.rotation keep,
    opt := optFilter g.opt keep,
    xyz_gradient_accum := boolFilter g.xyz_gradient_accum keep,
    denom := boolFilter g.denom keep,
    max_radii2D := boolFilter g.max_radii2D keep,
    mask := boolFilter g.mask keep,
    tensorHooks := [] }

/-- `densification_postfix`: concatenate the batch onto every attribute
array and (via `cat_tensors_to_optimizer`) zero-extend the moment
buffers, then reset `xyz_gradient_accum`, `denom` and `max_radii2D` to
zero arrays sized by `self.get_xyz.shape[0]` of the updated store.  The
mask is not touched here; callers extend it themselves.  New
`nn.Parameter` tensors are created, so no hooks remain attached. -/
def densification_postfix_step (g : GStore Bool) (b : Batch) : GStore Bool :=
  let g1 :=
    { g with
      xyz := g.xyz ++ b.xyz,
      features_dc := g.features_dc ++ b.f_dc,
      features_rest := g.features_rest ++ b.f_rest,
      opacity := g.opacity ++ b.opacity,
      scaling := g.scaling ++ b.scaling,
      rotation := g.rotation ++ b.rotation,
      opt := optCat g.opt b,
      tensorHooks := [] }
  let n := (get_xyz g1).length
  { g1 with
    xyz_gradient_accum := List.replicate n 0,
    denom := List.replicate n 0,
    max_radii2D := List.replicate n 0 }

/-- `apply_grad_mask(mask)`: asserts that the PREVIOUSLY stored mask's
length matches `self._xyz.shape[0]` (the argument's length is not
checked), installs the argument as `self.mask`, then sets
`self.hooks = []` and registers one fresh hook per attribute tensor —
without removing any hook registered earlier, whose handles are
discarded. -/
def apply_grad_mask (g : GStore μ) (m : List ν) :
    Except String (GStore ν) :=
  if g.mask.length = g.xyz.length then
    .ok { retypeMask g m with
          hookGen := g.hookGen + 1,
          hooksAttr := some g.hookGen,
          tensorHooks := g.tensorHooks ++ [g.hookGen] }
  else .error "AssertionError: mask shape mismatch"

/-- `remove_grad_mask`: iterates over `self.hooks` removing each handle,
then `del self.hooks`.  When `self.hooks` does not exist (never
installed, or already deleted) the attribute access raises. -/
def remove_grad_mask (g : GStore μ) : Except String (GStore μ) :=
  match g.hooksAttr with
  | none => .error "AttributeError: hooks"
  | some h =>
      .ok { g with hooksAttr := none, tensorHooks := g.tensorHooks.erase h }

/-- Clone selection: `‖grads‖ ≥ grad_threshold` (per-row norm of the
`(N,1)` gradient tensor, i.e. absolute value) AND
`max(get_scaling, dim=1) ≤ percent_dense * scene_extent`. -/
def cloneSel (A : Act) (g : GStore Bool) (grads : List ℚ)
    (grad_threshold scene_extent : ℚ) : List Bool :=
  List.zipWith
    (fun gr s =>
      decide (grad_threshold ≤ |gr|) &&
      decide (vmax3 s ≤ g.percent_dense * scene_extent))
    grads (get_scaling A g)

/-- `densify_and_clone`: append an exact raw-attribute duplicate of every
selected row, then assert that no selected row had a false mask (the
assertion fires AFTER the structural append), then extend the mask with
the selected rows' mask values. -/
def densify_and_clone (A : Act) (g : GStore Bool) (grads : List ℚ)
    (grad_threshold scene_extent : ℚ) : Except String (GStore Bool) :=
  let sel := cloneSel A g grads grad_threshold scene_extent
  let b : Batch :=
    { xyz := boolFilter g.xyz sel,
      f_dc := boolFilter g.features_dc sel,
      f_rest := boolFilter g.features_rest sel,
      opacity := boolFilter g.opacity sel,
      scaling := boolFilter g.scaling sel,
      rotation := boolFilter g.rotation sel }
  let g1 := densification_postfix_step g b
  if (boolFilter g.mask sel).all (· = true) then
    .ok { g1 with mask := g.mask ++ boolFilter g.mask sel }
  else .error "AssertionError: nontarget area should not be densified"

/-- Split selection: `padded_grad ≥ grad_threshold` (grads zero-padded to
`self.get_xyz.shape[0]`) AND `max(get_scaling, dim=1) >
percent_dense * scene_extent`. -/
def splitSel (A : Act) (g : GStore Bool) (grads : List ℚ)
    (grad_threshold scene_extent : ℚ) : List Bool :=
  let n := (get_xyz g).length
  let padded := grads.take n ++ List.replicate (n - grads.length) 0
  List.zipWith
    (fun pg s =>
      decide (grad_threshold ≤ pg) &&
      decide (g.percent_dense * scene_extent < vmax3 s))
    padded (get_scaling A g)

/-- `densify_and_split`: tile the selected rows' data `n` times; new
positions are parent position plus the rotated sample drawn with the
parent's activated scale as standard deviation (`sample i s` is the draw
`torch.normal` produces at tiled row `i` with std row `s`); new raw scale
is `scaling_inverse_activation(get_scaling / (0.8 * n))`; rotation,
colors, opacity (raw) are tiled unchanged.  After the append the mask is
extended with the selected rows' mask values tiled `n` times, and the
selected parents are pruned via a filter padded with
`n * sel.count true` falses. -/
def densify_and_split (A : Act) (sample : Nat → V3 → V3) (g : GStore Bool)
    (grads : List ℚ) (grad_threshold scene_extent : ℚ) (n : Nat) :
    GStore Bool :=
  let sel := splitSel A g grads grad_threshold scene_extent
  let selScaleAct := boolFilter (get_scaling A g) sel
  let stds := repTile n selScaleAct
  let samples := stds.enum.map (fun p => sample p.1 p.2)
  let rots := repTile n (boolFilter g.rotation sel)
  let xyzRep := repTile n (boolFilter (get_xyz g) sel)
  let new_xyz := zipW3 (fun r s x => addV3 (A.rotApply r s) x) rots samples xyzRep
  let new_scaling :=
    (repTile n selScaleAct).map
      (fun v => mapV3 A.log (mapV3 (fun x => x / ((4 / 5 : ℚ) * n)) v))
  let b : Batch :=
    { xyz := new_xyz,
      f_dc := repTile n (boolFilter g.features_dc sel),
      f_rest := repTile n (boolFilter g.features_rest sel),
      opacity := repTile n (boolFilter g.opacity sel),
      scaling := new_scaling,
      rotation := repTile n (boolFilter g.rotation sel) }
  let g1 := densification_postfix_step g b
  let new_mask := repTile n (boolFilter g.mask sel)
  let g2 := { g1 with mask := g1.mask ++ new_mask }
  let prune_filter := sel ++ List.replicate (n * sel.count true) false
  prune_points g2 prune_filter

/-- The prune mask the opacity/size prune inside `densify_and_prune`
computes: `get_opacity < min_opacity`, OR-ed (when `max_screen_size` is
truthy) with `max_radii2D > max_screen_size` and
`max(get_scaling) > 0.1 * extent`, and finally AND-ed with `self.mask`
(the fix restricting the automatic prune to optimizable primitives). -/
def densifyPruneMask (A : Act) (g : GStore Bool) (min_opacity : ℚ)
    (max_screen_size : Option ℚ) (extent : ℚ) : List Bool :=
  let pm := (get_opacity A g).map (fun o => decide (o < min_opacity))
  let pm :=
    match max_screen_size with
    | none => pm
    | some mss =>
        if mss = 0 then pm
        else
          zipW3
            (fun p r s =>
              (p || decide (mss < r)) || decide ((1 / 10 : ℚ) * extent < vmax3 s))
            pm g.max_radii2D (get_scaling A g)
  List.zipWith (fun a b => a && b) pm g.mask

/-- The opacity/size prune step of `densify_and_prune` (the code between
the clone/split calls and the final hook reinstall). -/
def densifyPruneStep (A : Act) (g : GStore Bool) (min_opacity : ℚ)
    (max_screen_size : Option ℚ) (extent : ℚ) : GStore Bool :=
  prune_points g (densifyPruneMask A g min_opacity max_screen_size extent)

/-- Python `int()` of a rational: truncation toward zero. -/
def pyInt (q : ℚ) : ℤ := if 0 ≤ q then q.floor else -((-q).floor)

/-- The comparison `torch.topk` effectively sorts indices by: strictly
larger value first, ties broken by smaller index. -/
def idxGe (xs : List ℚ) (i j : Nat) : Prop :=
  xs.getD j 0 < xs.getD i 0 ∨ (xs.getD i 0 = xs.getD j 0 ∧ i ≤ j)

instance (xs : List ℚ) : DecidableRel (idxGe xs) := by
  intro i j; unfold idxGe; infer_instance

/-- Indices of `xs` sorted so that values descend (ties by index). -/
def sortIdx (xs : List ℚ) : List Nat :=
  List.insertionSort (idxGe xs) (List.range xs.length)

/-- `torch.topk(xs, k).indices`: `k` indices of largest values. -/
def topkIdx (xs : List ℚ) (k : Nat) : List Nat := (sortIdx xs).take k

/-- The `is_first_densification` branch of `densify_and_prune`, entered
while `self.mask` still holds real-valued attention weights: set
`densi_mask`, trim the `int((k_percent/100) * N)` top-mask-weight
primitives via `prune_points`, remove the gradient hooks, re-derive the
boolean mask by `mask > attn_thres`, and reinstall the hooks; clone,
split and the opacity/size criteria are never reached.  `torch.topk`
raises when `k` exceeds the number of elements. -/
def densify_and_prune_first (g : GStore ℚ) (k_percent attn_thres : ℚ) :
    Except String (GStore Bool) :=
  let g0 := { g with densi_mask := g.mask.map (fun v => decide ((1 / 2 : ℚ) < v)) }
  let n : Nat := g0.mask.length
  let top_k := (pyInt ((k_percent / 100) * (n : ℚ))).toNat
  if top_k ≤ n then
    let idxs := topkIdx g0.mask top_k
    let k_mask := (List.range n).map (fun i => decide (i ∈ idxs))
    let g1 := prune_points g0 k_mask
    (remove_grad_mask g1).bind (fun g2 =>
      let g3 := retypeMask g2 (g2.mask.map (fun v => decide (attn_thres < v)))
      apply_grad_mask g3 g3.mask)
  else .error "RuntimeError: selected index k out of range"

/-- `concat_gaussians(another)`: append the other store's raw attributes
through `densification_postfix`, flip the current mask and mark every
imported row active, then `remove_grad_mask` and `apply_grad_mask`. -/
def concat_gaussians (g other : GStore Bool) : Except String (GStore Bool) :=
  let b : Batch :=
    { xyz := other.xyz, f_dc := other.features_dc,
      f_rest := other.features_rest, opacity := other.opacity,
      scaling := other.scaling, rotation := other.rotation }
  let g1 := densification_postfix_step g b
  let m := g.mask.map not ++ List.replicate other.opacity.length true
  let g2 := { g1 with mask := m }
  (remove_grad_mask g2).bind (fun g3 => apply_grad_mask g3 g3.mask)

/-- One group's moment buffers both have length `n` (trivially true when
the group has no stored state yet). -/
def momLen (m : Option (ParamMoments α)) (n : Nat) : Bool :=
  match m with
  | none => true
  | some s => decide (s.exp_avg.length = n) && decide (s.exp_avg_sq.length = n)

/-- The length invariant: every attribute array, the mask, the auxiliary
arrays and every present moment buffer have the population's length. -/
def wf (g : GStore μ) : Bool :=
  let n := g.xyz.length
  decide (g.features_dc.length = n) && decide (g.features_rest.length = n) &&
  decide (g.scaling.length = n) && decide (g.rotation.length = n) &&
  decide (g.opacity.length = n) && decide (g.mask.length = n) &&
  decide (g.max_radii2D.length = n) &&
  decide (g.xyz_gradient_accum.length = n) && decide (g.denom.length = n) &&
  momLen g.opt.xyz n && momLen g.opt.f_dc n && momLen g.opt.f_rest n &&
  momLen g.opt.opacity n && momLen g.opt.scaling n && momLen g.opt.rotation n

/-- The persisted point-record format: an ordered list of named float
columns (`plyfile` exposes one element type "vertex" whose properties all
share the vertex count). -/
structure PlyFile where
  props : List (String × List ℚ)
deriving DecidableEq

/-- `construct_list_of_attributes`: the persisted field names, with the
`f_dc`/`f_rest` counts taken from the tensors' `shape[1] * shape[2]`. -/
def construct_list_of_attributes (g : GStore μ) : List String :=
  let d := (g.features_dc.headD []).length
  let k := (g.features_rest.headD []).length
  ["x", "y", "z", "nx", "ny", "nz"]
    ++ (List.range (d * 3)).map (fun i => "f_dc_" ++ toString i)
    ++ (List.range (k * 3)).map (fun i => "f_rest_" ++ toString i)
    ++ ["opacity"]
    ++ (List.range 3).map (fun i => "scale_" ++ toString i)
    ++ (List.range 4).map (fun i => "rot_" ++ toString i)

/-- The columns of the `np.concatenate((xyz, normals, f_dc, f_rest,
opacities, scale, rotation), axis=1)` matrix, in order.  The feature
blocks are `transpose(1, 2)` followed by `flatten(start_dim=1)`, so flat
column `i` of a `(N, w, 3)` feature tensor reads coefficient `i % w` of
channel `i / w`. -/
def saveCols (g : GStore μ) : List (List ℚ) :=
  let d := (g.features_dc.headD []).length
  let k := (g.features_rest.headD []).length
  [g.xyz.map (proj3 0), g.xyz.map (proj3 1), g.xyz.map (proj3 2),
   g.xyz.map (fun _ => 0), g.xyz.map (fun _ => 0), g.xyz.map (fun _ => 0)]
    ++ (List.range (d * 3)).map
        (fun i => g.features_dc.map (fun r => proj3 (i / d) (r.getD (i % d) v3zero)))
    ++ (List.range (k * 3)).map
        (fun i => g.features_rest.map (fun r => proj3 (i / k) (r.getD (i % k) v3zero)))
    ++ [g.opacity]
    ++ (List.range 3).map (fun i => g.scaling.map (proj3 i))
    ++ (List.range 4).map (fun i => g.rotation.map (proj4 i))

/-- `save_ply`: emit the raw (unactivated) attribute values under the
constructed field names. -/
def save_ply (g : GStore μ) : PlyFile :=
  ⟨(construct_list_of_attributes g).zip (saveCols g)⟩

/-- Is `p` a character-wise prefix of `s`? (`str.startswith`). -/
def pfxB : List Char → List Char → Bool
  | [], _ => true
  | _, [] => false
  | a :: as_, b :: bs => (a == b) && pfxB as_ bs

def strStartsWith (s p : String) : Bool := pfxB p.data s.data

/-- `str.split("_")` on the character list. -/
def splitUnd (cs : List Char) (acc : List Char) : List (List Char) :=
  match cs with
  | [] => [acc.reverse]
  | c :: rest =>
      if c == '_' then acc.reverse :: splitUnd rest []
      else splitUnd rest (c :: acc)

def parseNatAux : List Char → Nat → Option Nat
  | [], acc => some acc
  | c :: rest, acc =>
      if c.isDigit then parseNatAux rest (acc * 10 + (c.toNat - 48))
      else none

/-- Parse a decimal numeral (`int(...)` on a digit string). -/
def parseNatQ (cs : List Char) : Option Nat :=
  match cs with
  | [] => none
  | _ => parseNatAux cs 0

/-- `int(name.split("_")[-1])`, the numeric sort key used on persisted
field names (defaulting where Python would raise on a non-numeric
suffix, which cannot happen for files this program wrote). -/
def suffixNat (s : String) : Nat :=
  (parseNatQ ((splitUnd s.data []).getLastD [])).getD 0

/-- Ordering of persisted field names by numeric suffix; `sorted` is
stable, as is insertion sort, so ties keep file order. -/
def nameLe (a b : String) : Prop := suffixNat a ≤ suffixNat b

instance : DecidableRel nameLe := by
  intro a b; unfold nameLe; infer_instance

def sortByName (l : List String) : List String := List.insertionSort nameLe l

/-- Look a named column up in the file (`plydata.elements[0][name]`). -/
def colOf (p : PlyFile) (name : String) : Option (List ℚ) :=
  p.props.lookup name

/-- Column lookup that raises `KeyError` like `plyfile` when absent. -/
def reqCol (p : PlyFile) (name : String) : Except String (List ℚ) :=
  match colOf p name with
  | some c => .ok c
  | none => .error ("KeyError: " ++ name)

/-- Integer square root by exhaustive search (structural, so it
evaluates by reduction); models the `** 0.5` in the degree inference,
which is exact on the perfect squares this format produces. -/
def intSqrt (n : Nat) : Nat :=
  ((List.range (n + 1)).filter (fun m => decide (m * m ≤ n))).getLastD 0

/-- `load_ply` up to (but excluding) the final `apply_grad_mask`:
rebuild every raw attribute from the named columns, inferring
`max_sh_degree` from the number of `f_rest_*` fields via
`K = (deg+1)^2 - 1`, re-deriving `features_dc`/`features_rest` by the
inverse reshape/transposes, and resetting the mask to all-ones.  The
auxiliary arrays and optimizer state of the store the method is called on
are left untouched.  Per-column length checks are not modelled: every
property array of a parsed PLY element has exactly the element count, so
the numpy column assignments cannot mismatch.  The store's typed
`(N, 3)` / `(N, 4)` scale and rotation fields require exactly the
arities this program writes. -/
def load_ply_core (g : GStore μ) (p : PlyFile) :
    Except String (GStore Bool) := do
  let cx ← reqCol p "x"
  let n : Nat := cx.length
  let cy ← reqCol p "y"
  let cz ← reqCol p "z"
  let cop ← reqCol p "opacity"
  let c0 ← reqCol p "f_dc_0"
  let c1 ← reqCol p "f_dc_1"
  let c2 ← reqCol p "f_dc_2"
  let restNames := sortByName ((p.props.map Prod.fst).filter
    (fun s => strStartsWith s "f_rest_"))
  let deg : Nat := intSqrt ((restNames.length + 3) / 3) - 1
  let kk : Nat := (deg + 1) ^ 2 - 1
  if restNames.length = 3 * kk then
    let restCols ← restNames.mapM (reqCol p)
    let scaleNames := sortByName ((p.props.map Prod.fst).filter
      (fun s => strStartsWith s "scale_"))
    let rotNames := sortByName ((p.props.map Prod.fst).filter
      (fun s => strStartsWith s "rot"))
    if scaleNames.length = 3 ∧ rotNames.length = 4 then
      let s0 ← reqCol p (scaleNames.getD 0 "")
      let s1 ← reqCol p (scaleNames.getD 1 "")
      let s2 ← reqCol p (scaleNames.getD 2 "")
      let r0 ← reqCol p (rotNames.getD 0 "")
      let r1 ← reqCol p (rotNames.getD 1 "")
      let r2 ← reqCol p (rotNames.getD 2 "")
      let r3 ← reqCol p (rotNames.getD 3 "")
      .ok
        { retypeMask g (List.replicate n true) with
          xyz := (List.range n).map
            (fun i => (cx.getD i 0, cy.getD i 0, cz.getD i 0)),
          features_dc := (List.range n).map
            (fun i => [(c0.getD i 0, c1.getD i 0, c2.getD i 0)]),
          features_rest := (List.range n).map
            (fun i => (List.range kk).map
              (fun j => ((restCols.getD j []).getD i 0,
                (restCols.getD (kk + j) []).getD i 0,
                (restCols.getD (2 * kk + j) []).getD i 0))),
          opacity := cop,
          scaling := (List.range n).map
            (fun i => (s0.getD i 0, s1.getD i 0, s2.getD i 0)),
          rotation := (List.range n).map
            (fun i => (r0.getD i 0, r1.getD i 0, r2.getD i 0, r3.getD i 0)),
          active_sh_degree := deg,
          max_sh_degree := deg,
          tensorHooks := [] }
    else .error "ValueError: scale or rotation arity"
  else .error "ValueError: cannot reshape f_rest block"

/-- `load_ply`: rebuild the raw attributes from the file and reinstall
the gradient mask over the freshly created parameter tensors. -/
def load_ply (g : GStore μ) (p : PlyFile) : Except String (GStore Bool) :=
  (load_ply_core g p).bind (fun g1 => apply_grad_mask g1 g1.mask)

@[simp]
theorem boolFilter_nil (m : List Bool) : boolFilter ([] : List α) m = [] := by
  simp [boolFilter]

@[simp]
theorem boolFilter_nil_mask (xs : List α) : boolFilter xs ([] : List Bool) = [] := by
  simp [boolFilter]

@[simp]
theorem boolFilter_cons (x : α) (xs : List α) (b : Bool) (m : List Bool) :
    boolFilter (x :: xs) (b :: m) =
      if b then x :: boolFilter xs m else boolFilter xs m := by
  by_cases h : b <;> simp [boolFilter, h]

theorem length_boolFilter (xs : List α) (m : List Bool) :
    (boolFilter xs m).length = (m.take xs.length).count true := by
  induction xs generalizing m with
  | nil => simp
  | cons x xs ih =>
      cases m with
      | nil => simp
      | cons b m =>
          by_cases h : b <;> simp [h, ih, List.count_cons]

theorem length_boolFilter_eq {xs : List α} {ys : List β} (m : List Bool)
    (h : xs.length = ys.length) :
    (boolFilter xs m).length = (boolFilter ys m).length := by
  rw [length_boolFilter, length_boolFilter, h]

theorem length_boolFilter_of_len {xs : List α} {m : List Bool}
    (h : m.length = xs.length) :
    (boolFilter xs m).length = m.count true := by
  rw [length_boolFilter, ← h, List.take_length]

theorem boolFilter_append {xs ys : List α} {m1 m2 : List Bool}
    (h : m1.length = xs.length) :
    boolFilter (xs ++ ys) (m1 ++ m2) = boolFilter xs m1 ++ boolFilter ys m2 := by
  induction xs generalizing m1 with
  | nil =>
      have : m1 = [] := List.length_eq_zero.mp (by simpa using h)
      simp [this]
  | cons x xs ih =>
      cases m1 with
      | nil => simp at h
      | cons b m1 =>
          have h' : m1.length = xs.length := by simpa using h
          by_cases hb : b <;> simp [hb, ih h']

theorem boolFilter_replicate_true (xs : List α) (k : Nat) :
    boolFilter xs (List.replicate k true) = xs.take k := by
  induction xs generalizing k with
  | nil => simp
  | cons x xs ih =>
      cases k with
      | zero => simp
      | succ k => simp [List.replicate_succ, ih]

theorem boolFilter_replicate_false (xs : List α) (k : Nat) :
    boolFilter xs (List.replicate k false) = [] := by
  induction xs generalizing k with
  | nil => simp
  | cons x xs ih =>
      cases k with
      | zero => simp
      | succ k => simp [List.replicate_succ, ih]

theorem boolFilter_map (f : α → β) (xs : List α) (m : List Bool) :
    boolFilter (xs.map f) m = (boolFilter xs m).map f := by
  induction xs generalizing m with
  | nil => simp
  | cons x xs ih =>
      cases m with
      | nil => simp
      | cons b m => by_cases hb : b <;> simp [hb, ih]

theorem boolFilter_getElem? {xs : List α} {m : List Bool} {i : Nat}
    (hlen : m.length = xs.length) (hi : m[i]? = some true) :
    (boolFilter xs m)[ctb m i]? = xs[i]? := by
  induction xs generalizing m i with
  | nil =>
      have : m = [] := List.length_eq_zero.mp (by simpa using hlen)
      subst this; simp at hi
  | cons x xs ih =>
      cases m with
      | nil => simp at hi
      | cons b m =>
          have h' : m.length = xs.length := by simpa using hlen
          cases i with
          | zero =>
              have hb : b = true := by simpa using hi
              subst hb; simp [ctb]
          | succ i =>
              have hi' : m[i]? = some true := by simpa using hi
              by_cases hb : b
              · subst hb
                simp only [boolFilter_cons, if_true, ctb, List.take_succ_cons,
                  List.count_cons, if_pos rfl]
                simpa [ctb, Nat.add_comm] using ih h' hi'
              · have hb' : b = false := by simpa using hb
                subst hb'
                simpa [ctb] using ih h' hi'

theorem count_true_map_not (m : List Bool) :
    (m.map not).count true = m.count false := by
  induction m with
  | nil => simp
  | cons b m ih => cases b <;> simp [List.count_cons, ih]

theorem count_bool_split (m : List Bool) :
    m.count true + m.count false = m.length := by
  induction m with
  | nil => simp
  | cons b m ih => cases b <;> simp [List.count_cons] <;> omega

@[simp]
theorem length_repTile (n : Nat) (xs : List α) :
    (repTile n xs).length = n * xs.length := by
  induction n with
  | zero => simp [repTile]
  | succ n ih =>
      simp only [repTile, List.replicate_succ, List.flatten_cons,
        List.length_append] at ih ⊢
      rw [ih]; ring

theorem repTile_two (xs : List α) : repTile 2 xs = xs ++ xs := by
  simp [repTile, List.replicate_succ]

theorem length_zipW3 (f : α → β → γ → δ) (as_ : List α) (bs : List β)
    (cs : List γ) :
    (zipW3 f as_ bs cs).length =
      min as_.length (min bs.length cs.length) := by
  induction as_ generalizing bs cs with
  | nil => simp [zipW3]
  | cons a as_ ih =>
      cases bs with
      | nil => simp [zipW3]
      | cons b bs =>
          cases cs with
          | nil => simp [zipW3]
          | cons c cs => simp [zipW3, ih]; omega

@[simp]
theorem postfix_step_xyz (g : GStore Bool) (b : Batch) :
    (densification_postfix_step g b).xyz = g.xyz ++ b.xyz := rfl

@[simp]
theorem postfix_step_f_dc (g : GStore Bool) (b : Batch) :
    (densification_postfix_step g b).features_dc = g.features_dc ++ b.f_dc := rfl

@[simp]
theorem postfix_step_f_rest (g : GStore Bool) (b : Batch) :
    (densification_postfix_step g b).features_rest =
      g.features_rest ++ b.f_rest := rfl

@[simp]
theorem postfix_step_opacity (g : GStore Bool) (b : Batch) :
    (densification_postfix_step g b).opacity = g.opacity ++ b.opacity := rfl

@[simp]
theorem postfix_step_scaling (g : GStore Bool) (b : Batch) :
    (densification_postfix_step g b).scaling = g.scaling ++ b.scaling := rfl

@[simp]
theorem postfix_step_rotation (g : GStore Bool) (b : Batch) :
    (densification_postfix_step g b).rotation = g.rotation ++ b.rotation := rfl

@[simp]
theorem postfix_step_mask (g : GStore Bool) (b : Batch) :
    (densification_postfix_step g b).mask = g.mask := rfl

@[simp]
theorem postfix_step_opt (g : GStore Bool) (b : Batch) :
    (densification_postfix_step g b).opt = optCat g.opt b := rfl

@[simp]
theorem postfix_step_localize (g : GStore Bool) (b : Batch) :
    (densification_postfix_step g b).localize = g.localize := rfl

theorem postfix_step_aux (g : GStore Bool) (b : Batch)
    (hloc : g.localize = false) :
    (densification_postfix_step g b).xyz_gradient_accum =
        List.replicate (g.xyz.length + b.xyz.length) 0 ∧
    (densification_postfix_step g b).denom =
        List.replicate (g.xyz.length + b.xyz.length) 0 ∧
    (densification_postfix_step g b).max_radii2D =
        List.replicate (g.xyz.length + b.xyz.length) 0 := by
  simp [densification_postfix_step, get_xyz, hloc]

/-- C10: every append through `densification_postfix` resets
`xyz_gradient_accum`, `denom` and `max_radii2D` to zeros for the ENTIRE
new population — accumulated statistics of pre-existing rows are
discarded — while the six attribute arrays and the optimizer moment
buffers keep their old rows' values (moments extended with zeros). -/
theorem postfix_resets_aux_keeps_attrs (g : GStore Bool) (b : Batch)
    (hloc : g.localize = false) :
    (∀ i : Nat,
      (densification_postfix_step g b).xyz_gradient_accum[i]? =
        if i < g.xyz.length + b.xyz.length then some 0 else none) ∧
    (∀ i : Nat,
      (densification_postfix_step g b).denom[i]? =
        if i < g.xyz.length + b.xyz.length then some 0 else none) ∧
    (∀ i : Nat,
      (densification_postfix_step g b).max_radii2D[i]? =
        if i < g.xyz.length + b.xyz.length then some 0 else none) ∧
    (densification_postfix_step g b).xyz = g.xyz ++ b.xyz ∧
    (densification_postfix_step g b).features_dc = g.features_dc ++ b.f_dc ∧
    (densification_postfix_step g b).features_rest =
      g.features_rest ++ b.f_rest ∧
    (densification_postfix_step g b).opacity = g.opacity ++ b.opacity ∧
    (densification_postfix_step g b).scaling = g.scaling ++ b.scaling ∧
    (densification_postfix_step g b).rotation = g.rotation ++ b.rotation ∧
    (∀ s, g.opt.xyz = some s →
      (densification_postfix_step g b).opt.xyz =
        some ⟨s.exp_avg ++ b.xyz.map ZLike.zl,
              s.exp_avg_sq ++ b.xyz.map ZLike.zl⟩) ∧
    (∀ s, g.opt.f_dc = some s →
      (densification_postfix_step g b).opt.f_dc =
        some ⟨s.exp_avg ++ b.f_dc.map ZLike.zl,
              s.exp_avg_sq ++ b.f_dc.map ZLike.zl⟩) ∧
    (∀ s, g.opt.f_rest = some s →
      (densification_postfix_step g b).opt.f_rest =
        some ⟨s.exp_avg ++ b.f_rest.map ZLike.zl,
              s.exp_avg_sq ++ b.f_rest.map ZLike.zl⟩) ∧
    (∀ s, g.opt.opacity = some s →
      (densification_postfix_step g b).opt.opacity =
        some ⟨s.exp_avg ++ b.opacity.map ZLike.zl,
              s.exp_avg_sq ++ b.opacity.map ZLike.zl⟩) ∧
    (∀ s, g.opt.scaling = some s →
      (densification_postfix_step g b).opt.scaling =
        some ⟨s.exp_avg ++ b.scaling.map ZLike.zl,
              s.exp_avg_sq ++ b.scaling.map ZLike.zl⟩) ∧
    (∀ s, g.opt.rotation = some s →
      (densification_postfix_step g b).opt.rotation =
        some ⟨s.exp_avg ++ b.rotation.map ZLike.zl,
              s.exp_avg_sq ++ b.rotation.map ZLike.zl⟩) := by
  obtain ⟨h1, h2, h3⟩ := postfix_step_aux g b hloc
  refine ⟨?_, ?_, ?_, rfl, rfl, rfl, rfl, rfl, rfl, ?_, ?_, ?_, ?_, ?_, ?_⟩
  · intro i; rw [h1, List.getElem?_replicate]
  · intro i; rw [h2, List.getElem?_replicate]
  · intro i; rw [h3, List.getElem?_replicate]
  all_goals
    intro s hs
    simp [optCat, momCat, hs, ZLike.zl]

/-- One-primitive concrete store used to instantiate theorems (nonzero
accumulated statistics, no optimizer state yet, no hooks installed). -/
def st1 : GStore Bool :=
  { xyz := [(1, 2, 3)], features_dc := [[(1, 0, 0)]],
    features_rest := [[(0, 1, 0), (0, 0, 1)]], scaling := [(1, 1, 2)],
    rotation := [(1, 0, 0, 0)], opacity := [3], max_radii2D := [7],
    xyz_gradient_accum := [5], denom := [2], mask := [true],
    densi_mask := [true], opt := ⟨none, none, none, none, none, none⟩,
    percent_dense := 1 / 100, localize := false, active_sh_degree := 0,
    max_sh_degree := 0, hookGen := 0, hooksAttr := none, tensorHooks := [] }

/-- A one-row batch of new primitives. -/
def bt1 : Batch :=
  { xyz := [(4, 4, 4)], f_dc := [[(0, 2, 0)]],
    f_rest := [[(1, 1, 0), (0, 1, 1)]], opacity := [1],
    scaling := [(2, 2, 2)], rotation := [(0, 1, 0, 0)] }

/-- Identity-flavoured concrete activation record for witnesses. -/
def act0 : Act :=
  { exp := id, log := id, sigmoid := id, normalize := id,
    covRow := fun _ _ _ => ((0, 0, 0), (0, 0, 0)),
    rotApply := fun _ v => v }

/-- Witness for the C10 theorem: the pre-existing row's accumulated
gradient value 5 is discarded in favour of 0 after an append. -/
theorem postfix_resets_aux_keeps_attrs_witness :
    (densification_postfix_step st1 bt1).xyz_gradient_accum[0]? =
      if 0 < st1.xyz.length + bt1.xyz.length then some 0 else none :=
  (postfix_resets_aux_keeps_attrs st1 bt1 rfl).1 0

def exOk : Except ε α → Bool
  | .ok _ => true
  | .error _ => false

/-- Project a view out of a successful result. -/
def exView (f : α → β) : Except ε α → Option β
  | .ok a => some (f a)
  | .error _ => none

/-- C6 counterexample: on a store with population N = 1 (and a stored
mask of matching length 1), `apply_grad_mask` with a length-2 candidate
mask does NOT fail — it succeeds and installs the length-2 mask.  The
assert checks only the previously stored mask against `_xyz`, never the
argument being installed. -/
theorem apply_grad_mask_wrong_length_accepted :
    exOk (apply_grad_mask st1 [true, true]) = true ∧
    exView (fun g => g.mask) (apply_grad_mask st1 [true, true]) =
      some [true, true] ∧
    st1.xyz.length = 1 := by
  refine ⟨?_, ?_, rfl⟩ <;> rfl

/-- C6 amended: `apply_grad_mask(m)` succeeds iff the PREVIOUSLY stored
mask's length equals the population `N = _xyz.length`; the argument's
length is never checked, and on success the argument is installed as the
new mask unconditionally.  (At every call site in the source the argument
is `self.mask` itself, for which the two checks coincide.) -/
theorem apply_grad_mask_checks_stored_mask (g : GStore μ) (m : List ν) :
    (exOk (apply_grad_mask g m) = true ↔ g.mask.length = g.xyz.length) ∧
    (∀ g', apply_grad_mask g m = .ok g' → g'.mask = m) := by
  unfold apply_grad_mask
  by_cases h : g.mask.length = g.xyz.length
  · refine ⟨by simp [h, exOk], ?_⟩
    intro g' hg'
    simp only [if_pos h] at hg'
    cases hg'
    rfl
  · refine ⟨by simp [h, exOk], ?_⟩
    intro g' hg'
    simp [if_neg h] at hg'

/-- Witness for the C6 amended theorem at a concrete store. -/
theorem apply_grad_mask_checks_stored_mask_witness :
    exOk (apply_grad_mask st1 [false]) = true :=
  (apply_grad_mask_checks_stored_mask st1 [false]).1.mpr (by decide)

/-- C7 counterexample: two `apply_grad_mask` calls with no intervening
`remove_grad_mask` both succeed (no failure), and afterwards TWO hooks
are registered on each attribute tensor — interceptions stack, the
previous interception is not replaced. -/
theorem apply_grad_mask_twice_stacks :
    exOk ((apply_grad_mask st1 [true]).bind
      (fun g1 => apply_grad_mask g1 [false])) = true ∧
    exView (fun g => g.tensorHooks.length)
      ((apply_grad_mask st1 [true]).bind
        (fun g1 => apply_grad_mask g1 [false])) = some 2 := by
  exact ⟨rfl, rfl⟩

/-- C7 amended: `apply_grad_mask` (whenever its stored-mask assert
passes) always succeeds, registering one extra hook per attribute tensor
on top of whatever was already registered and overwriting `self.hooks`
with the new handles — so double-installing stacks interceptions and
leaks the old handles rather than failing; `remove_grad_mask` is strict:
it fails when `self.hooks` does not exist, and otherwise removes exactly
the most recently installed handle set. -/
theorem grad_mask_hook_discipline (g : GStore μ) (m : List ν) :
    (g.mask.length = g.xyz.length →
      ∀ g', apply_grad_mask g m = .ok g' →
        g'.tensorHooks = g.tensorHooks ++ [g.hookGen] ∧
        g'.hooksAttr = some g.hookGen) ∧
    (g.hooksAttr = none → remove_grad_mask g = .error "AttributeError: hooks") ∧
    (∀ h0, g.hooksAttr = some h0 →
      remove_grad_mask g =
        .ok { g with hooksAttr := none,
                     tensorHooks := g.tensorHooks.erase h0 }) := by
  refine ⟨?_, ?_, ?_⟩
  · intro h g' hg'
    unfold apply_grad_mask at hg'
    simp only [if_pos h] at hg'
    cases hg'
    exact ⟨rfl, rfl⟩
  · intro h; unfold remove_grad_mask; rw [h]
  · intro h0 h; unfold remove_grad_mask; rw [h]

/-- Witness for the C7 amended theorem: on `st1` (no hooks installed)
`remove_grad_mask` fails. -/
theorem grad_mask_hook_discipline_witness :
    remove_grad_mask st1 = .error "AttributeError: hooks" :=
  (grad_mask_hook_discipline st1 ([] : List Bool)).2.1 rfl

theorem wf_iff (g : GStore μ) : wf g = true ↔
    (g.features_dc.length = g.xyz.length ∧
     g.features_rest.length = g.xyz.length ∧
     g.scaling.length = g.xyz.length ∧
     g.rotation.length = g.xyz.length ∧
     g.opacity.length = g.xyz.length ∧
     g.mask.length = g.xyz.length ∧
     g.max_radii2D.length = g.xyz.length ∧
     g.xyz_gradient_accum.length = g.xyz.length ∧
     g.denom.length = g.xyz.length ∧
     momLen g.opt.xyz g.xyz.length = true ∧
     momLen g.opt.f_dc g.xyz.length = true ∧
     momLen g.opt.f_rest g.xyz.length = true ∧
     momLen g.opt.opacity g.xyz.length = true ∧
     momLen g.opt.scaling g.xyz.length = true ∧
     momLen g.opt.rotation g.xyz.length = true) := by
  simp [wf, Bool.and_eq_true, decide_eq_true_eq, and_assoc]

theorem cloneSel_length (A : Act) (g : GStore Bool) (grads : List ℚ)
    (thr ext : ℚ) (hloc : g.localize = false) :
    (cloneSel A g grads thr ext).length = min grads.length g.scaling.length := by
  simp [cloneSel, get_scaling, hloc]

theorem append_filter_getElem {xs : List α} {sel : List Bool} {i : Nat}
    (hlen : sel.length = xs.length) (hi : sel[i]? = some true) :
    (xs ++ boolFilter xs sel)[xs.length + ctb sel i]? = xs[i]? := by
  rw [List.getElem?_append_right (by omega), Nat.add_sub_cancel_left]
  exact boolFilter_getElem? hlen hi

/-- C3: `densify_and_clone` appends exactly `k` rows (`k` the number of
rows satisfying the clone predicate encoded by `cloneSel`: gradient norm
at least the threshold AND maximal activated scale at most
`percent_dense * scene_extent`), so the population becomes `P + k`; each
appended row is an exact raw-attribute copy of its source row, the
appended mask value equals the source's mask value, and (because of the
internal assertion) every selected source row has a true mask. -/
theorem densify_and_clone_spec (A : Act) (g : GStore Bool) (grads : List ℚ)
    (thr ext : ℚ) (g' : GStore Bool)
    (hloc : g.localize = false) (hwf : wf g = true)
    (hgr : grads.length = g.xyz.length)
    (hok : densify_and_clone A g grads thr ext = .ok g') :
    g'.xyz.length = g.xyz.length + (cloneSel A g grads thr ext).count true ∧
    (∀ i : Nat, (cloneSel A g grads thr ext)[i]? = some true →
      g'.xyz[g.xyz.length + ctb (cloneSel A g grads thr ext) i]? = g.xyz[i]? ∧
      g'.features_dc[g.xyz.length + ctb (cloneSel A g grads thr ext) i]? =
        g.features_dc[i]? ∧
      g'.features_rest[g.xyz.length + ctb (cloneSel A g grads thr ext) i]? =
        g.features_rest[i]? ∧
      g'.opacity[g.xyz.length + ctb (cloneSel A g grads thr ext) i]? =
        g.opacity[i]? ∧
      g'.scaling[g.xyz.length + ctb (cloneSel A g grads thr ext) i]? =
        g.scaling[i]? ∧
      g'.rotation[g.xyz.length + ctb (cloneSel A g grads thr ext) i]? =
        g.rotation[i]? ∧
      g'.mask[g.xyz.length + ctb (cloneSel A g grads thr ext) i]? =
        g.mask[i]?) ∧
    (∀ i : Nat, (cloneSel A g grads thr ext)[i]? = some true →
      g.mask[i]? = some true) := by
  obtain ⟨hdc, hrest, hsc, hrot, hop, hm, -, -, -, -⟩ := (wf_iff g).mp hwf
  have hsel : (cloneSel A g grads thr ext).length = g.xyz.length := by
    rw [cloneSel_length A g grads thr ext hloc, hgr, hsc, min_self]
  simp only [densify_and_clone] at hok
  split at hok
  case isFalse => exact absurd hok (by simp)
  case isTrue hall =>
    rw [Except.ok.injEq] at hok
    subst hok
    set sel := cloneSel A g grads thr ext with hseldef
    have hgx : ({ densification_postfix_step g
        { xyz := boolFilter g.xyz sel, f_dc := boolFilter g.features_dc sel,
          f_rest := boolFilter g.features_rest sel,
          opacity := boolFilter g.opacity sel,
          scaling := boolFilter g.scaling sel,
          rotation := boolFilter g.rotation sel } with
        mask := g.mask ++ boolFilter g.mask sel } : GStore Bool).xyz =
        g.xyz ++ boolFilter g.xyz sel := rfl
    refine ⟨?_, ?_, ?_⟩
    · rw [hgx, List.length_append, length_boolFilter, ← hsel, List.take_length]
    · intro i hi
      refine ⟨append_filter_getElem hsel hi, ?_, ?_, ?_, ?_, ?_, ?_⟩
      · show (g.features_dc ++ boolFilter g.features_dc sel)[g.xyz.length +
          ctb sel i]? = g.features_dc[i]?
        rw [← hdc]; exact append_filter_getElem (hsel.trans hdc.symm) hi
      · show (g.features_rest ++ boolFilter g.features_rest sel)[g.xyz.length +
          ctb sel i]? = g.features_rest[i]?
        rw [← hrest]; exact append_filter_getElem (hsel.trans hrest.symm) hi
      · show (g.opacity ++ boolFilter g.opacity sel)[g.xyz.length +
          ctb sel i]? = g.opacity[i]?
        rw [← hop]; exact append_filter_getElem (hsel.trans hop.symm) hi
      · show (g.scaling ++ boolFilter g.scaling sel)[g.xyz.length +
          ctb sel i]? = g.scaling[i]?
        rw [← hsc]; exact append_filter_getElem (hsel.trans hsc.symm) hi
      · show (g.rotation ++ boolFilter g.rotation sel)[g.xyz.length +
          ctb sel i]? = g.rotation[i]?
        rw [← hrot]; exact append_filter_getElem (hsel.trans hrot.symm) hi
      · show (g.mask ++ boolFilter g.mask sel)[g.xyz.length +
          ctb sel i]? = g.mask[i]?
        rw [← hm]; exact append_filter_getElem (hsel.trans hm.symm) hi
    · intro i hi
      have hlen : sel.length = g.mask.length := hsel.trans hm.symm
      have hfi : (boolFilter g.mask sel)[ctb sel i]? = g.mask[i]? :=
        boolFilter_getElem? hlen hi
      obtain ⟨hlt, -⟩ := List.getElem?_eq_some_iff.mp hi
      have hi' : i < g.mask.length := by omega
      have hv : g.mask[i]? = some g.mask[i] := List.getElem?_eq_getElem hi'
      have hmem : g.mask[i] ∈ boolFilter g.mask sel :=
        List.getElem?_mem (by rw [hfi]; exact hv)
      have hval := List.all_eq_true.mp hall _ hmem
      simp only [decide_eq_true_eq] at hval
      rw [hv, hval]

/-- The concrete result of a successful clone on `st1` (gradient 1 at
threshold 1, scene extent 1000 so the one primitive is small enough). -/
def cloneRes : GStore Bool :=
  ((densify_and_clone act0 st1 [1] 1 1000).toOption).getD st1

/-- Witness for the C3 theorem: on `st1` the clone fires and the
population grows by the selected count. -/
theorem densify_and_clone_spec_witness :
    cloneRes.xyz.length =
      st1.xyz.length + (cloneSel act0 st1 [1] 1 1000).count true :=
  (densify_and_clone_spec act0 st1 [1] 1 1000 cloneRes rfl (by decide) rfl
    (by with_unfolding_all rfl)).1

theorem momFilter_true (m : Option (ParamMoments α)) (n : Nat)
    (hm : momLen m n = true) :
    momFilter m (List.replicate n true) = m := by
  cases m with
  | none => rfl
  | some s =>
      simp only [momLen, Bool.and_eq_true, decide_eq_true_eq] at hm
      simp [momFilter, boolFilter_replicate_true,
        List.take_of_length_le hm.1.le, List.take_of_length_le hm.2.le]

theorem optFilter_true (o : OptState) (n : Nat)
    (h1 : momLen o.xyz n = true) (h2 : momLen o.f_dc n = true)
    (h3 : momLen o.f_rest n = true) (h4 : momLen o.opacity n = true)
    (h5 : momLen o.scaling n = true) (h6 : momLen o.rotation n = true) :
    optFilter o (List.replicate n true) = o := by
  cases o
  simp only [optFilter]
  rw [momFilter_true _ _ h1, momFilter_true _ _ h2, momFilter_true _ _ h3,
    momFilter_true _ _ h4, momFilter_true _ _ h5, momFilter_true _ _ h6]

theorem densifyPruneMask_length (A : Act) (g : GStore Bool)
    (min_opacity : ℚ) (mss : Option ℚ) (extent : ℚ)
    (hloc : g.localize = false) (hwf : wf g = true) :
    (densifyPruneMask A g min_opacity mss extent).length = g.xyz.length := by
  obtain ⟨-, -, hsc, -, hop, hm, hrad, -, -⟩ := (wf_iff g).mp hwf
  have hopl : (get_opacity A g).length = g.xyz.length := by
    simp [get_opacity, hloc, hop]
  have hscl : (get_scaling A g).length = g.xyz.length := by
    simp [get_scaling, hloc, hsc]
  cases mss with
  | none => simp [densifyPruneMask, hopl, hm]
  | some v =>
      by_cases hv : v = 0
      · simp [densifyPruneMask, hv, hopl, hm]
      · simp [densifyPruneMask, hv, length_zipW3, hopl, hm, hrad, hscl]

theorem zipWith_and_false {X m : List Bool} {i : Nat}
    (hm : m[i]? = some false) (hx : i < X.length) :
    (List.zipWith (fun a b => a && b) X m)[i]? = some false := by
  obtain ⟨hi, hv⟩ := List.getElem?_eq_some_iff.mp hm
  rw [List.getElem?_eq_getElem (by rw [List.length_zipWith]; omega)]
  rw [List.getElem_zipWith, hv, Bool.and_false]

theorem zipWith_and_replicate_false (X : List Bool) (n : Nat) :
    List.zipWith (fun a b => a && b) X (List.replicate n false) =
      List.replicate (min X.length n) false := by
  induction X generalizing n with
  | nil => simp
  | cons x X ih =>
      cases n with
      | zero => simp
      | succ n =>
          simp only [List.replicate_succ, List.zipWith_cons_cons,
            Bool.and_false, ih, List.length_cons]
          rw [show min (X.length + 1) (n + 1) = min X.length n + 1 from by
            omega, List.replicate_succ]

/-- C4: the opacity/size prune inside `densify_and_prune` removes only
primitives whose `optimizable` flag is true.  Any primitive with a false
mask gets a false entry in the prune mask regardless of its opacity, 2D
radius or scale; and on a store whose flags are all false, the prune step
removes zero primitives and leaves every array unchanged. -/
theorem densify_prune_mask_protection (A : Act) (g : GStore Bool)
    (min_opacity extent : ℚ) (mss : Option ℚ)
    (hloc : g.localize = false) (hwf : wf g = true) :
    (∀ i : Nat, g.mask[i]? = some false →
      (densifyPruneMask A g min_opacity mss extent)[i]? = some false) ∧
    (g.mask = List.replicate g.xyz.length false →
      (densifyPruneStep A g min_opacity mss extent).xyz = g.xyz ∧
      (densifyPruneStep A g min_opacity mss extent).features_dc =
        g.features_dc ∧
      (densifyPruneStep A g min_opacity mss extent).features_rest =
        g.features_rest ∧
      (densifyPruneStep A g min_opacity mss extent).opacity = g.opacity ∧
      (densifyPruneStep A g min_opacity mss extent).scaling = g.scaling ∧
      (densifyPruneStep A g min_opacity mss extent).rotation = g.rotation ∧
      (densifyPruneStep A g min_opacity mss extent).mask = g.mask ∧
      (densifyPruneStep A g min_opacity mss extent).xyz_gradient_accum =
        g.xyz_gradient_accum ∧
      (densifyPruneStep A g min_opacity mss extent).denom = g.denom ∧
      (densifyPruneStep A g min_opacity mss extent).max_radii2D =
        g.max_radii2D ∧
      (densifyPruneStep A g min_opacity mss extent).opt = g.opt) := by
  obtain ⟨hdc, hrest, hsc, hrot, hop, hm, hrad, hacc, hden, hmo1, hmo2,
    hmo3, hmo4, hmo5, hmo6⟩ := (wf_iff g).mp hwf
  have hopl : (get_opacity A g).length = g.xyz.length := by
    simp [get_opacity, hloc, hop]
  have hscl : (get_scaling A g).length = g.xyz.length := by
    simp [get_scaling, hloc, hsc]
  have hshape : ∃ X : List Bool, densifyPruneMask A g min_opacity mss
      extent = List.zipWith (fun a b => a && b) X g.mask := by
    cases mss with
    | none => exact ⟨_, rfl⟩
    | some v =>
        by_cases hv : v = 0
        · refine ⟨(get_opacity A g).map (fun o => decide (o < min_opacity)), ?_⟩
          simp [densifyPruneMask, hv]
        · refine ⟨zipW3
            (fun p r s =>
              (p || decide (v < r)) ||
                decide ((1 / 10 : ℚ) * extent < vmax3 s))
            ((get_opacity A g).map (fun o => decide (o < min_opacity)))
            g.max_radii2D (get_scaling A g), ?_⟩
          simp only [densifyPruneMask, if_neg hv]
  obtain ⟨X, hX⟩ := hshape
  have hlen := densifyPruneMask_length A g min_opacity mss extent hloc hwf
  constructor
  · intro i hmi
    obtain ⟨hilt, -⟩ := List.getElem?_eq_some_iff.mp hmi
    rw [hX] at hlen ⊢
    rw [List.length_zipWith] at hlen
    exact zipWith_and_false hmi (by omega)
  · intro hmask
    have hpm : densifyPruneMask A g min_opacity mss extent =
        List.replicate g.xyz.length false := by
      rw [hX, hmask, zipWith_and_replicate_false] at hlen ⊢
      simp only [List.length_replicate] at hlen
      rw [hlen]
    have hkeep : (densifyPruneMask A g min_opacity mss extent).map not =
        List.replicate g.xyz.length true := by
      rw [hpm, List.map_replicate]; rfl
    refine ⟨?_, ?_, ?_, ?_, ?_, ?_, ?_, ?_, ?_, ?_, ?_⟩ <;>
      simp only [densifyPruneStep, prune_points, hkeep,
        boolFilter_replicate_true]
    · rw [List.take_length]
    · rw [← hdc, List.take_length]
    · rw [← hrest, List.take_length]
    · rw [← hop, List.take_length]
    · rw [← hsc, List.take_length]
    · rw [← hrot, List.take_length]
    · rw [← hm, List.take_length]
    · rw [← hacc, List.take_length]
    · rw [← hden, List.take_length]
    · rw [← hrad, List.take_length]
    · exact optFilter_true g.opt g.xyz.length hmo1 hmo2 hmo3 hmo4 hmo5 hmo6

/-- `st1` with its only primitive marked non-optimizable. -/
def st2 : GStore Bool := { st1 with mask := [false] }

/-- Witness for the C4 theorem: with the lone flag false, the prune step
keeps the position array unchanged. -/
theorem densify_prune_mask_protection_witness :
    (densifyPruneStep act0 st2 5 (some 3) 1).xyz = st2.xyz :=
  ((densify_prune_mask_protection act0 st2 5 1 (some 3) rfl
    (by decide)).2 (by decide)).1

@[simp]
theorem prune_points_xyz (g : GStore μ) (m : List Bool) :
    (prune_points g m).xyz = boolFilter g.xyz (m.map not) := rfl

@[simp]
theorem prune_points_f_dc (g : GStore μ) (m : List Bool) :
    (prune_points g m).features_dc = boolFilter g.features_dc (m.map not) := rfl

@[simp]
theorem prune_points_f_rest (g : GStore μ) (m : List Bool) :
    (prune_points g m).features_rest =
      boolFilter g.features_rest (m.map not) := rfl

@[simp]
theorem prune_points_opacity (g : GStore μ) (m : List Bool) :
    (prune_points g m).opacity = boolFilter g.opacity (m.map not) := rfl

@[simp]
theorem prune_points_scaling (g : GStore μ) (m : List Bool) :
    (prune_points g m).scaling = boolFilter g.scaling (m.map not) := rfl

@[simp]
theorem prune_points_rotation (g : GStore μ) (m : List Bool) :
    (prune_points g m).rotation = boolFilter g.rotation (m.map not) := rfl

@[simp]
theorem prune_points_mask (g : GStore μ) (m : List Bool) :
    (prune_points g m).mask = boolFilter g.mask (m.map not) := rfl

@[simp]
theorem prune_points_opt (g : GStore μ) (m : List Bool) :
    (prune_points g m).opt = optFilter g.opt (m.map not) := rfl

theorem repTile_succ (n : Nat) (xs : List α) :
    repTile (n + 1) xs = xs ++ repTile n xs := by
  simp [repTile, List.replicate_succ]

theorem repTile_map (n : Nat) (f : α → β) (xs : List α) :
    repTile n (xs.map f) = (repTile n xs).map f := by
  induction n with
  | zero => simp [repTile]
  | succ n ih => rw [repTile_succ, repTile_succ, List.map_append, ih]

theorem filter_prune_append {attr off : List α} {sel : List Bool} {j : Nat}
    (hlen : sel.length = attr.length) (hoff : off.length = j) :
    boolFilter (attr ++ off) ((sel ++ List.replicate j false).map not) =
      boolFilter attr (sel.map not) ++ off := by
  rw [List.map_append, boolFilter_append (by simpa using hlen)]
  congr 1
  rw [List.map_replicate]
  show boolFilter off (List.replicate j !false) = off
  rw [Bool.not_false, boolFilter_replicate_true, ← hoff, List.take_length]

/-- C2: with `N_split = 2`, `densify_and_split` leaves `P + k` primitives
(`k` the count of rows satisfying the split predicate encoded by
`splitSel`); none of the selected parent rows survive — each surviving
array is the unselected original rows followed by the tiled offspring —
each offspring's raw log-scale is `log(exp(parent raw scale) / (0.8*2))`
componentwise, and offspring rotation, colors, opacity and mask values
are copied unchanged from the parent. -/
theorem densify_and_split_spec (A : Act) (sample : Nat → V3 → V3)
    (g : GStore Bool) (grads : List ℚ) (thr ext : ℚ) (sel : List Bool)
    (k : Nat) (hloc : g.localize = false) (hwf : wf g = true)
    (hgr : grads.length ≤ g.xyz.length)
    (hsel : sel = splitSel A g grads thr ext) (hk : k = sel.count true) :
    (densify_and_split A sample g grads thr ext 2).xyz.length =
      g.xyz.length + k ∧
    (densify_and_split A sample g grads thr ext 2).scaling =
      boolFilter g.scaling (sel.map not) ++
        repTile 2 ((boolFilter g.scaling sel).map
          (mapV3 (fun x => A.log (A.exp x / (8 / 5 : ℚ))))) ∧
    (densify_and_split A sample g grads thr ext 2).rotation =
      boolFilter g.rotation (sel.map not) ++
        repTile 2 (boolFilter g.rotation sel) ∧
    (densify_and_split A sample g grads thr ext 2).features_dc =
      boolFilter g.features_dc (sel.map not) ++
        repTile 2 (boolFilter g.features_dc sel) ∧
    (densify_and_split A sample g grads thr ext 2).features_rest =
      boolFilter g.features_rest (sel.map not) ++
        repTile 2 (boolFilter g.features_rest sel) ∧
    (densify_and_split A sample g grads thr ext 2).opacity =
      boolFilter g.opacity (sel.map not) ++
        repTile 2 (boolFilter g.opacity sel) ∧
    (densify_and_split A sample g grads thr ext 2).mask =
      boolFilter g.mask (sel.map not) ++
        repTile 2 (boolFilter g.mask sel) := by
  obtain ⟨hdc, hrest, hsc, hrot, hop, hm, -, -, -, -, -, -, -, -, -⟩ :=
    (wf_iff g).mp hwf
  have hgsl : get_scaling A g = g.scaling.map (mapV3 A.exp) := by
    simp [get_scaling, hloc]
  have hgxl : get_xyz g = g.xyz := by simp [get_xyz, hloc]
  have hsellen : sel.length = g.xyz.length := by
    subst hsel
    simp only [splitSel, hgxl, hgsl, List.length_zipWith, List.length_append,
      List.length_take, List.length_replicate, List.length_map]
    omega
  have hcnt : ∀ {α : Type} (xs : List α), sel.length = xs.length →
      (boolFilter xs sel).length = k := by
    intro α xs hx
    rw [length_boolFilter_of_len hx, hk]
  have hscact : (boolFilter (get_scaling A g) sel).length = k := by
    rw [hgsl]
    exact hcnt _ (by rw [List.length_map, hsc, ← hsellen])
  have hxyzoff :
      (zipW3 (fun r s x => addV3 (A.rotApply r s) x)
        (repTile 2 (boolFilter g.rotation sel))
        (((repTile 2 (boolFilter (get_scaling A g) sel)).enum).map
          (fun p => sample p.1 p.2))
        (repTile 2 (boolFilter (get_xyz g) sel))).length =
        2 * sel.count true := by
    rw [length_zipW3, List.length_map, List.enum_length, length_repTile,
      length_repTile, length_repTile, hscact,
      hcnt _ (by rw [hrot, ← hsellen]),
      hcnt _ (by rw [hgxl, ← hsellen])]
    omega
  have hkeepcnt : ((sel.map not).take g.xyz.length).count true =
      g.xyz.length - k := by
    have h1 : (sel.map not).length = g.xyz.length := by
      rw [List.length_map, hsellen]
    rw [← h1, List.take_length, count_true_map_not]
    have h2 := count_bool_split sel
    omega
  simp only [densify_and_split, prune_points_xyz, prune_points_scaling,
    prune_points_rotation, prune_points_f_dc, prune_points_f_rest,
    prune_points_opacity, prune_points_mask, postfix_step_xyz,
    postfix_step_scaling, postfix_step_rotation, postfix_step_f_dc,
    postfix_step_f_rest, postfix_step_opacity, postfix_step_mask, ← hsel]
  refine ⟨?_, ?_, ?_, ?_, ?_, ?_, ?_⟩
  · rw [filter_prune_append hsellen hxyzoff]
    rw [List.length_append, hxyzoff, length_boolFilter]
    have hkle : k ≤ g.xyz.length := by
      rw [hk, ← hsellen]
      apply List.count_le_length
    omega
  · rw [filter_prune_append (hsellen.trans hsc.symm)
      (by rw [List.length_map, length_repTile, hscact]; omega)]
    congr 1
    rw [hgsl, boolFilter_map, ← repTile_map, List.map_map]
    congr 1
    apply List.map_congr_left
    intro v hv
    simp only [Function.comp]
    have harg : ((4 : ℚ) / 5) * ((2 : ℕ) : ℚ) = 8 / 5 := by norm_num
    show mapV3 A.log (mapV3 (fun x => x / ((4 / 5 : ℚ) * ((2 : ℕ) : ℚ)))
      (mapV3 A.exp v)) = mapV3 (fun x => A.log (A.exp x / (8 / 5 : ℚ))) v
    rw [harg]
    rfl
  · exact filter_prune_append (hsellen.trans hrot.symm)
      (by rw [length_repTile, hcnt _ (hsellen.trans hrot.symm)]; omega)
  · exact filter_prune_append (hsellen.trans hdc.symm)
      (by rw [length_repTile, hcnt _ (hsellen.trans hdc.symm)]; omega)
  · exact filter_prune_append (hsellen.trans hrest.symm)
      (by rw [length_repTile, hcnt _ (hsellen.trans hrest.symm)]; omega)
  · exact filter_prune_append (hsellen.trans hop.symm)
      (by rw [length_repTile, hcnt _ (hsellen.trans hop.symm)]; omega)
  · exact filter_prune_append (hsellen.trans hm.symm)
      (by rw [length_repTile, hcnt _ (hsellen.trans hm.symm)]; omega)

/-- Witness for the C2 theorem: on `st1` (activated max scale 2 above
`percent_dense * extent = 1`, gradient at threshold) the split fires and
the population becomes `P + k = 1 + 1`. -/
theorem densify_and_split_spec_witness :
    (densify_and_split act0 (fun _ _ => v3zero) st1 [1] 1 100 2).xyz.length =
      st1.xyz.length + 1 :=
  (densify_and_split_spec act0 (fun _ _ => v3zero) st1 [1] 1 100 [true] 1
    rfl (by decide) (by decide) (by with_unfolding_all rfl) (by decide)).1

theorem zipWith_getElem?_some (f : α → β → γ) {as_ : List α} {bs : List β}
    {i : Nat} {a : α} {b : β} (ha : as_[i]? = some a) (hb : bs[i]? = some b) :
    (List.zipWith f as_ bs)[i]? = some (f a b) := by
  obtain ⟨h1, e1⟩ := List.getElem?_eq_some_iff.mp ha
  obtain ⟨h2, e2⟩ := List.getElem?_eq_some_iff.mp hb
  rw [List.getElem?_eq_getElem (by rw [List.length_zipWith]; omega),
    List.getElem_zipWith]
  rw [e1, e2]

/-- A two-primitive store in local-view mode with one non-optimizable
row. -/
def st3 : GStore Bool :=
  { st1 with
    xyz := [(1, 2, 3), (4, 5, 6)],
    features_dc := [[(1, 0, 0)], [(0, 1, 0)]],
    features_rest := [[(0, 1, 0), (0, 0, 1)], [(1, 0, 0), (0, 1, 1)]],
    scaling := [(1, 1, 2), (2, 0, 1)],
    rotation := [(1, 0, 0, 0), (0, 1, 0, 0)], opacity := [3, 4],
    max_radii2D := [7, 8], xyz_gradient_accum := [5, 6], denom := [2, 3],
    mask := [true, false], densi_mask := [true, true], localize := true }

/-- C8 counterexample: on a well-formed two-row store in local view with
mask `[true, false]`, `get_covariance` does not return the masked rows'
covariance — it raises a boolean-index shape mismatch, because it indexes
the already-masked `get_scaling` (length 1) by the full-length mask
again. -/
theorem get_covariance_localize_fails :
    get_covariance act0 st3 1 =
      .error "IndexError: boolean index shape mismatch" ∧
    st3.localize = true ∧ wf st3 = true := by
  exact ⟨rfl, rfl, by decide⟩

/-- C8 amended: in local view (`localize = true`) on a well-formed store,
`get_xyz`, `get_scaling`, `get_rotation`, `get_opacity` and
`get_features` return exactly the mask-true rows with the stored
activations applied (identity, componentwise exp, normalize, sigmoid, and
row concatenation of `color_dc`/`color_rest` respectively), and the view
has one row per true mask entry.  `get_covariance`, however, indexes the
already-masked activated scaling by the full-length mask a second time:
it fails with a shape mismatch whenever some mask entry is false, and
only when every entry is true does it return the covariance of the
masked scaling and rotation rows. -/
theorem localized_accessors_spec (A : Act) (g : GStore Bool) (mod : ℚ)
    (hloc : g.localize = true) (hwf : wf g = true) :
    (∀ i : Nat, g.mask[i]? = some true →
      (get_xyz g)[ctb g.mask i]? = g.xyz[i]? ∧
      (get_scaling A g)[ctb g.mask i]? = (g.scaling[i]?).map (mapV3 A.exp) ∧
      (get_rotation A g)[ctb g.mask i]? = (g.rotation[i]?).map A.normalize ∧
      (get_opacity A g)[ctb g.mask i]? = (g.opacity[i]?).map A.sigmoid) ∧
    (∀ (i : Nat) (d r : List V3), g.mask[i]? = some true →
      g.features_dc[i]? = some d → g.features_rest[i]? = some r →
      (get_features g)[ctb g.mask i]? = some (d ++ r)) ∧
    (get_xyz g).length = g.mask.count true ∧
    (g.mask.count true ≠ g.mask.length →
      get_covariance A g mod =
        .error "IndexError: boolean index shape mismatch") ∧
    (g.mask.count true = g.mask.length →
      get_covariance A g mod =
        .ok (List.zipWith (A.covRow mod) (get_scaling A g)
          (boolFilter g.rotation g.mask))) := by
  obtain ⟨hdc, hrest, hsc, hrot, hop, hm, -, -, -, -, -, -, -, -, -⟩ :=
    (wf_iff g).mp hwf
  have hscl : (get_scaling A g).length = g.mask.count true := by
    simp only [get_scaling, hloc, if_true, List.length_map]
    exact length_boolFilter_of_len (hm.trans hsc.symm)
  refine ⟨?_, ?_, ?_, ?_, ?_⟩
  · intro i hi
    refine ⟨?_, ?_, ?_, ?_⟩
    · simp only [get_xyz, hloc, if_true]
      exact boolFilter_getElem? (hm.trans rfl) hi
    · simp only [get_scaling, hloc, if_true, List.getElem?_map]
      rw [boolFilter_getElem? (hm.trans hsc.symm) hi]
    · simp only [get_rotation, hloc, if_true, List.getElem?_map]
      rw [boolFilter_getElem? (hm.trans hrot.symm) hi]
    · simp only [get_opacity, hloc, if_true, List.getElem?_map]
      rw [boolFilter_getElem? (hm.trans hop.symm) hi]
  · intro i d r hi hd hr
    simp only [get_features, hloc, if_true]
    exact zipWith_getElem?_some _
      ((boolFilter_getElem? (hm.trans hdc.symm) hi).trans hd)
      ((boolFilter_getElem? (hm.trans hrest.symm) hi).trans hr)
  · simp only [get_xyz, hloc, if_true]
    exact length_boolFilter_of_len hm
  · intro hne
    simp only [get_covariance, hloc, if_true, tIndex]
    rw [if_neg (by omega)]
    rfl
  · intro heq
    have hall : g.mask = List.replicate g.mask.length true := by
      refine List.eq_replicate_iff.mpr ⟨rfl, fun b hb => ?_⟩
      exact (List.count_eq_length.mp heq b hb).symm
    have h1 : (get_scaling A g).length = g.mask.length := by omega
    have h2 : g.rotation.length = g.mask.length := hrot.trans hm.symm
    have h3 : boolFilter (get_scaling A g) g.mask = get_scaling A g := by
      conv_lhs => rw [hall]
      rw [boolFilter_replicate_true, List.take_of_length_le (by omega)]
    simp only [get_covariance, hloc, if_true, tIndex, h1, h2,
      eq_self_iff_true, ite_true, Except.bind, h3]
    rfl

/-- Witness for the C8 amended theorem: on `st3` the localized view has
one row per true mask entry. -/
theorem localized_accessors_spec_witness :
    (get_xyz st3).length = st3.mask.count true :=
  (localized_accessors_spec act0 st3 1 rfl (by decide)).2.2.1

instance (xs : List ℚ) : IsTotal Nat (idxGe xs) := by
  constructor
  intro i j
  rcases lt_trichotomy (xs.getD i 0) (xs.getD j 0) with h | h | h
  · exact Or.inr (Or.inl h)
  · rcases Nat.le_total i j with hij | hij
    · exact Or.inl (Or.inr ⟨h, hij⟩)
    · exact Or.inr (Or.inr ⟨h.symm, hij⟩)
  · exact Or.inl (Or.inl h)

instance (xs : List ℚ) : IsTrans Nat (idxGe xs) := by
  constructor
  intro a b c hab hbc
  rcases hab with h1 | ⟨h1, h1'⟩ <;> rcases hbc with h2 | ⟨h2, h2'⟩
  · exact Or.inl (h2.trans h1)
  · exact Or.inl (h2 ▸ h1)
  · exact Or.inl (h1 ▸ h2)
  · exact Or.inr ⟨h1.trans h2, h1'.trans h2'⟩

theorem sortIdx_perm (xs : List ℚ) :
    (sortIdx xs).Perm (List.range xs.length) :=
  List.perm_insertionSort _ _

theorem sortIdx_sorted (xs : List ℚ) :
    List.Sorted (idxGe xs) (sortIdx xs) :=
  List.sorted_insertionSort _ _

theorem sortIdx_length (xs : List ℚ) : (sortIdx xs).length = xs.length := by
  rw [(sortIdx_perm xs).length_eq, List.length_range]

theorem topkIdx_length {xs : List ℚ} {k : Nat} (h : k ≤ xs.length) :
    (topkIdx xs k).length = k := by
  rw [topkIdx, List.length_take, sortIdx_length]
  omega

theorem topkIdx_nodup (xs : List ℚ) (k : Nat) : (topkIdx xs k).Nodup :=
  ((sortIdx_perm xs).nodup_iff.mpr (List.nodup_range _)).sublist
    (List.take_sublist _ _)

theorem topkIdx_lt {xs : List ℚ} {k a : Nat} (h : a ∈ topkIdx xs k) :
    a < xs.length := by
  have := (sortIdx_perm xs).mem_iff.mp ((List.take_subset _ _) h)
  exact List.mem_range.mp this

theorem topk_ranked {xs : List ℚ} {k i j : Nat}
    (hi : i ∈ topkIdx xs k) (hj : j < xs.length)
    (hj2 : j ∉ topkIdx xs k) : xs.getD j 0 ≤ xs.getD i 0 := by
  have hsorted := sortIdx_sorted xs
  have hj3 : j ∈ sortIdx xs :=
    (sortIdx_perm xs).mem_iff.mpr (List.mem_range.mpr hj)
  have hjdrop : j ∈ (sortIdx xs).drop k := by
    have hsp : j ∈ (sortIdx xs).take k ++ (sortIdx xs).drop k := by
      rw [List.take_append_drop]; exact hj3
    rcases List.mem_append.mp hsp with h | h
    · exact absurd h hj2
    · exact h
  have hpw := hsorted
  rw [List.Sorted, ← List.take_append_drop k (sortIdx xs),
    List.pairwise_append] at hpw
  rcases hpw.2.2 i hi j hjdrop with h | ⟨he, -⟩
  · exact le_of_lt h
  · exact le_of_eq he.symm

theorem count_mem_mask {idxs : List Nat} {n : Nat} (hnd : idxs.Nodup)
    (hsub : ∀ a ∈ idxs, a < n) :
    ((List.range n).map (fun i => decide (i ∈ idxs))).count true =
      idxs.length := by
  have h1 : ((List.range n).map (fun i => decide (i ∈ idxs))).count true =
      (List.range n).countP (fun i => decide (i ∈ idxs)) := by
    rw [List.count, List.countP_map]
    apply List.countP_congr
    intro a ha
    simp
  rw [h1, List.countP_eq_length_filter]
  have hperm : (List.range n).filter (fun i => decide (i ∈ idxs)) |>.Perm
      idxs := by
    rw [List.perm_ext_iff_of_nodup
      ((List.nodup_range n).filter _) hnd]
    intro a
    rw [List.mem_filter, List.mem_range]
    constructor
    · rintro ⟨-, h⟩
      exact of_decide_eq_true h
    · intro h
      exact ⟨hsub a h, decide_eq_true h⟩
  exact hperm.length_eq

@[simp]
theorem prune_points_hooksAttr (g : GStore μ) (m : List Bool) :
    (prune_points g m).hooksAttr = g.hooksAttr := rfl

@[simp]
theorem prune_points_tensorHooks (g : GStore μ) (m : List Bool) :
    (prune_points g m).tensorHooks = [] := rfl

@[simp]
theorem prune_points_aux (g : GStore μ) (m : List Bool) :
    (prune_points g m).xyz_gradient_accum =
      boolFilter g.xyz_gradient_accum (m.map not) ∧
    (prune_points g m).denom = boolFilter g.denom (m.map not) ∧
    (prune_points g m).max_radii2D = boolFilter g.max_radii2D (m.map not) :=
  ⟨rfl, rfl, rfl⟩

/-- The store the first densification cycle produces (used to name the
existential witness of the C5 theorem explicitly). -/
def firstCycleResult (g : GStore ℚ) (kmask : List Bool)
    (attn_thres : ℚ) : GStore Bool :=
  let g1 := prune_points
    { g with densi_mask := g.mask.map (fun v => decide ((1 / 2 : ℚ) < v)) }
    kmask
  let g2 := { g1 with hooksAttr := none, tensorHooks := [] }
  let g3 := retypeMask g2 (g2.mask.map (fun v => decide (attn_thres < v)))
  { retypeMask g3 g3.mask with
    hookGen := g3.hookGen + 1,
    hooksAttr := some g3.hookGen,
    tensorHooks := g3.tensorHooks ++ [g3.hookGen] }

/-- C5: with `is_first_densification`, `densify_and_prune` performs no
clone and no split: it succeeds, removing exactly
`int((k_percent / 100) * N)` primitives — the ones whose real-valued mask
weights are top-ranked (every removed weight is at least every surviving
weight) — then re-derives the boolean mask as `mask > attn_thres` over
the surviving rows, reinstalls exactly one gradient interception, and
returns without evaluating the opacity/size prune criteria (every
surviving array is a filtered sub-array of the original). -/
theorem densify_first_cycle_spec (g : GStore ℚ) (k_percent attn_thres : ℚ)
    (idxs : List Nat) (kmask : List Bool) (tk h0 : Nat)
    (hwf : wf g = true) (hha : g.hooksAttr = some h0)
    (htk : tk = (pyInt ((k_percent / 100) * (g.mask.length : ℚ))).toNat)
    (htkle : tk ≤ g.mask.length) (hidx : idxs = topkIdx g.mask tk)
    (hkm : kmask =
      (List.range g.mask.length).map (fun i => decide (i ∈ idxs))) :
    ∃ g' : GStore Bool,
      densify_and_prune_first g k_percent attn_thres = .ok g' ∧
      g'.xyz = boolFilter g.xyz (kmask.map not) ∧
      g'.xyz.length = g.xyz.length - tk ∧
      g'.mask = (boolFilter g.mask (kmask.map not)).map
        (fun v => decide (attn_thres < v)) ∧
      (∀ i j : Nat, kmask[i]? = some true → kmask[j]? = some false →
        g.mask.getD j 0 ≤ g.mask.getD i 0) ∧
      g'.hooksAttr = some g.hookGen ∧ g'.tensorHooks = [g.hookGen] := by
  subst hidx
  obtain ⟨hdc, hrest, hsc, hrot, hop, hm, -, -, -, -, -, -, -, -, -⟩ :=
    (wf_iff g).mp hwf
  have hkmlen : kmask.length = g.mask.length := by
    rw [hkm, List.length_map, List.length_range]
  have hcnt : kmask.count true = tk := by
    rw [hkm, count_mem_mask (topkIdx_nodup g.mask tk)
      (fun a ha => topkIdx_lt ha), topkIdx_length htkle]
  have hmask3len : ((boolFilter g.mask (kmask.map not)).map
      (fun v => decide (attn_thres < v))).length =
      (boolFilter g.xyz (kmask.map not)).length := by
    rw [List.length_map]
    exact length_boolFilter_eq _ (hm.trans rfl)
  refine ⟨firstCycleResult g kmask attn_thres, ?_, ?_, ?_, ?_, ?_, ?_, ?_⟩
  · simp only [densify_and_prune_first]
    rw [if_pos (show (pyInt ((k_percent / 100) *
      (g.mask.length : ℚ))).toNat ≤ g.mask.length from by omega)]
    simp only [← htk, ← hkm]
    simp only [remove_grad_mask, prune_points_hooksAttr, hha,
      prune_points_tensorHooks, List.erase_nil, Except.bind]
    simp only [apply_grad_mask, retypeMask, prune_points_mask,
      prune_points_xyz]
    rw [if_pos hmask3len]
    rfl
  · rfl
  · show (boolFilter g.xyz (kmask.map not)).length = g.xyz.length - tk
    have h3 : (kmask.map not).length = kmask.length := by
      rw [List.length_map]
    rw [length_boolFilter, ← hm, ← hkmlen, ← h3, List.take_length,
      count_true_map_not]
    have h2 := count_bool_split kmask
    omega
  · rfl
  · intro i j hi hj
    obtain ⟨hilt, -⟩ := List.getElem?_eq_some_iff.mp hi
    obtain ⟨hjlt, -⟩ := List.getElem?_eq_some_iff.mp hj
    rw [hkmlen] at hilt hjlt
    rw [hkm, List.getElem?_map, List.getElem?_range hilt] at hi
    rw [hkm, List.getElem?_map, List.getElem?_range hjlt] at hj
    simp only [Option.map_some', Option.some.injEq, decide_eq_true_eq]
      at hi hj
    exact topk_ranked hi hjlt (by simpa using hj)
  · rfl
  · rfl

/-- A three-primitive store whose mask still holds real-valued attention
weights, with a gradient interception installed. -/
def st4 : GStore ℚ :=
  { xyz := [(0, 0, 0), (1, 1, 1), (2, 2, 2)],
    features_dc := [[(0, 0, 0)], [(0, 0, 0)], [(0, 0, 0)]],
    features_rest := [[(0, 0, 0)], [(0, 0, 0)], [(0, 0, 0)]],
    scaling := [(0, 0, 0), (0, 0, 0), (0, 0, 0)],
    rotation := [(1, 0, 0, 0), (1, 0, 0, 0), (1, 0, 0, 0)],
    opacity := [0, 0, 0], max_radii2D := [0, 0, 0],
    xyz_gradient_accum := [0, 0, 0], denom := [0, 0, 0],
    mask := [3, 0, 2], densi_mask := [], opt := ⟨none, none, none, none, none, none⟩,
    percent_dense := 0, localize := false, active_sh_degree := 0,
    max_sh_degree := 0, hookGen := 7, hooksAttr := some 5,
    tensorHooks := [5] }

/-- Witness for the C5 theorem: the first densification cycle succeeds on
`st4` with `k_percent = 40` (so `int(0.4 * 3) = 1` primitive trimmed). -/
theorem densify_first_cycle_spec_witness :
    exOk (densify_and_prune_first st4 40 (1 / 2)) = true := by
  obtain ⟨g', h1, -⟩ := densify_first_cycle_spec st4 40 (1 / 2)
    (topkIdx st4.mask 1)
    ((List.range st4.mask.length).map
      (fun i => decide (i ∈ topkIdx st4.mask 1))) 1 5
    (by decide) rfl (by with_unfolding_all decide) (by decide) rfl rfl
  rw [h1]
  rfl

theorem momLen_filter (m : Option (ParamMoments α)) (n : Nat)
    (keep : List Bool) (hm : momLen m n = true) :
    momLen (momFilter m keep) ((keep.take n).count true) = true := by
  cases m with
  | none => rfl
  | some s =>
      simp only [momLen, Bool.and_eq_true, decide_eq_true_eq] at hm
      simp only [momFilter, momLen, Option.map_some', Bool.and_eq_true,
        decide_eq_true_eq, length_boolFilter]
      rw [hm.1, hm.2]
      exact ⟨rfl, rfl⟩

theorem momLen_cat [ZLike α] (m : Option (ParamMoments α)) (n j : Nat)
    (ext : List α) (hm : momLen m n = true) (he : ext.length = j) :
    momLen (momCat m ext) (n + j) = true := by
  cases m with
  | none => rfl
  | some s =>
      simp only [momLen, Bool.and_eq_true, decide_eq_true_eq] at hm
      simp only [momCat, momLen, Option.map_some', Bool.and_eq_true,
        decide_eq_true_eq, List.length_append, List.length_map]
      omega

/-- `prune_points` preserves the length invariant for every prune mask:
all arrays are filtered by the same keep mask. -/
theorem wf_prune (g : GStore μ) (m : List Bool) (hwf : wf g = true) :
    wf (prune_points g m) = true := by
  obtain ⟨hdc, hrest, hsc, hrot, hop, hm', hrad, hacc, hden, hm1, hm2, hm3,
    hm4, hm5, hm6⟩ := (wf_iff g).mp hwf
  rw [wf_iff]
  have hx : ∀ {α : Type} (xs : List α), xs.length = g.xyz.length →
      (boolFilter xs (m.map not)).length =
        (boolFilter g.xyz (m.map not)).length := by
    intro α xs hxs
    exact length_boolFilter_eq _ hxs
  have hn : (boolFilter g.xyz (m.map not)).length =
      ((m.map not).take g.xyz.length).count true :=
    length_boolFilter _ _
  refine ⟨hx _ hdc, hx _ hrest, hx _ hsc, hx _ hrot, hx _ hop, hx _ hm',
    hx _ hrad, hx _ hacc, hx _ hden, ?_, ?_, ?_, ?_, ?_, ?_⟩ <;>
    simp only [prune_points] <;> rw [hn]
  · exact momLen_filter _ _ _ hm1
  · exact momLen_filter _ _ _ hm2
  · exact momLen_filter _ _ _ hm3
  · exact momLen_filter _ _ _ hm4
  · exact momLen_filter _ _ _ hm5
  · exact momLen_filter _ _ _ hm6

/-- Appending a batch of `j` well-shaped rows through
`densification_postfix` and then installing any mask of the new
population's length preserves the length invariant. -/
theorem wf_postfix_mask (g : GStore Bool) (b : Batch) (j : Nat)
    (newMask : List Bool) (hloc : g.localize = false) (hwf : wf g = true)
    (h1 : b.xyz.length = j) (h2 : b.f_dc.length = j)
    (h3 : b.f_rest.length = j) (h4 : b.opacity.length = j)
    (h5 : b.scaling.length = j) (h6 : b.rotation.length = j)
    (hnm : newMask.length = g.xyz.length + j) :
    wf { densification_postfix_step g b with mask := newMask } = true := by
  obtain ⟨hdc, hrest, hsc, hrot, hop, hm', hrad, hacc, hden, hm1, hm2, hm3,
    hm4, hm5, hm6⟩ := (wf_iff g).mp hwf
  obtain ⟨ha1, ha2, ha3⟩ := postfix_step_aux g b hloc
  rw [wf_iff]
  have hxyz : ({ densification_postfix_step g b with
      mask := newMask } : GStore Bool).xyz.length = g.xyz.length + j := by
    show (densification_postfix_step g b).xyz.length = g.xyz.length + j
    rw [postfix_step_xyz, List.length_append, h1]
  rw [hxyz]
  refine ⟨?_, ?_, ?_, ?_, ?_, hnm, ?_, ?_, ?_, ?_, ?_, ?_, ?_, ?_, ?_⟩
  · show (g.features_dc ++ b.f_dc).length = g.xyz.length + j
    rw [List.length_append, hdc, h2]
  · show (g.features_rest ++ b.f_rest).length = g.xyz.length + j
    rw [List.length_append, hrest, h3]
  · show (g.scaling ++ b.scaling).length = g.xyz.length + j
    rw [List.length_append, hsc, h5]
  · show (g.rotation ++ b.rotation).length = g.xyz.length + j
    rw [List.length_append, hrot, h6]
  · show (g.opacity ++ b.opacity).length = g.xyz.length + j
    rw [List.length_append, hop, h4]
  · show (densification_postfix_step g b).max_radii2D.length =
      g.xyz.length + j
    rw [ha3, List.length_replicate, h1]
  · show (densification_postfix_step g b).xyz_gradient_accum.length =
      g.xyz.length + j
    rw [ha1, List.length_replicate, h1]
  · show (densification_postfix_step g b).denom.length = g.xyz.length + j
    rw [ha2, List.length_replicate, h1]
  · exact momLen_cat _ _ _ _ hm1 h1
  · exact momLen_cat _ _ _ _ hm2 h2
  · exact momLen_cat _ _ _ _ hm3 h3
  · exact momLen_cat _ _ _ _ hm4 h4
  · exact momLen_cat _ _ _ _ hm5 h5
  · exact momLen_cat _ _ _ _ hm6 h6

theorem splitSel_length (A : Act) (g : GStore Bool) (grads : List ℚ)
    (thr ext : ℚ) (hloc : g.localize = false)
    (hsc : g.scaling.length = g.xyz.length) :
    (splitSel A g grads thr ext).length = g.xyz.length := by
  simp only [splitSel, get_xyz, get_scaling, hloc, Bool.false_eq_true,
    if_false, List.length_zipWith, List.length_append, List.length_take,
    List.length_replicate, List.length_map, hsc]
  omega

/-- `densify_and_clone` preserves the length invariant. -/
theorem wf_clone (A : Act) (g g' : GStore Bool) (grads : List ℚ)
    (thr ext : ℚ) (hloc : g.localize = false) (hwf : wf g = true)
    (hok : densify_and_clone A g grads thr ext = .ok g') :
    wf g' = true ∧ g'.localize = false := by
  obtain ⟨hdc, hrest, hsc, hrot, hop, hm', -, -, -, -, -, -, -, -, -⟩ :=
    (wf_iff g).mp hwf
  simp only [densify_and_clone] at hok
  split at hok
  case isFalse => exact absurd hok (by simp)
  case isTrue hall =>
    rw [Except.ok.injEq] at hok
    subst hok
    set sel := cloneSel A g grads thr ext with hseldef
    have hfl : ∀ {α : Type} (xs : List α), xs.length = g.xyz.length →
        (boolFilter xs sel).length = (sel.take g.xyz.length).count true := by
      intro α xs hxs
      rw [length_boolFilter, hxs]
    constructor
    · exact wf_postfix_mask g _ ((sel.take g.xyz.length).count true) _ hloc
        hwf (hfl _ rfl) (hfl _ hdc) (hfl _ hrest) (hfl _ hop) (hfl _ hsc)
        (hfl _ hrot)
        (by rw [List.length_append, hm', hfl _ hm'])
    · exact hloc

/-- `densify_and_split` preserves the length invariant. -/
theorem wf_split (A : Act) (sample : Nat → V3 → V3) (g : GStore Bool)
    (grads : List ℚ) (thr ext : ℚ) (n : Nat) (hloc : g.localize = false)
    (hwf : wf g = true) :
    wf (densify_and_split A sample g grads thr ext n) = true ∧
    (densify_and_split A sample g grads thr ext n).localize = false := by
  obtain ⟨hdc, hrest, hsc, hrot, hop, hm', -, -, -, -, -, -, -, -, -⟩ :=
    (wf_iff g).mp hwf
  have hsl := splitSel_length A g grads thr ext hloc hsc
  set sel := splitSel A g grads thr ext with hseldef
  have hfl : ∀ {α : Type} (xs : List α), xs.length = g.xyz.length →
      (boolFilter xs sel).length = sel.count true := by
    intro α xs hxs
    rw [length_boolFilter, hxs, ← hsl, List.take_length]
  have hgsl : (get_scaling A g).length = g.xyz.length := by
    simp [get_scaling, hloc, hsc]
  have hgxl : (get_xyz g).length = g.xyz.length := by simp [get_xyz, hloc]
  constructor
  · apply wf_prune
    apply wf_postfix_mask g _ (n * sel.count true) _ hloc hwf
    · rw [length_zipW3, List.length_map, List.enum_length, length_repTile,
        length_repTile, length_repTile, hfl _ hrot,
        length_boolFilter, hgsl, ← hsl, List.take_length,
        length_boolFilter, hgxl, ← hsl, List.take_length]
      omega
    · rw [length_repTile, hfl _ hdc]
    · rw [length_repTile, hfl _ hrest]
    · rw [length_repTile, hfl _ hop]
    · rw [List.length_map, length_repTile, length_boolFilter, hgsl, ← hsl,
        List.take_length]
    · rw [length_repTile, hfl _ hrot]
    · rw [List.length_append, length_repTile, postfix_step_mask, hm',
        hfl _ hm']
  · simp [densify_and_split, prune_points, hloc]

/-- `concat_gaussians` (population merge) preserves the length
invariant whenever it succeeds. -/
theorem wf_merge (g other g' : GStore Bool) (hloc : g.localize = false)
    (hwf : wf g = true) (hwfo : wf other = true)
    (hok : concat_gaussians g other = .ok g') :
    wf g' = true ∧ g'.localize = false := by
  obtain ⟨hodc, horest, hosc, horot, hoop, -, -, -, -, -, -, -, -, -, -⟩ :=
    (wf_iff other).mp hwfo
  obtain ⟨-, -, -, -, -, hm', -, -, -, -, -, -, -, -, -⟩ := (wf_iff g).mp hwf
  simp only [concat_gaussians] at hok
  cases hH : g.hooksAttr with
  | none =>
      rw [show ({ densification_postfix_step g
        { xyz := other.xyz, f_dc := other.features_dc,
          f_rest := other.features_rest, opacity := other.opacity,
          scaling := other.scaling, rotation := other.rotation } with
        mask := g.mask.map not ++
          List.replicate other.opacity.length true } : GStore Bool).hooksAttr
        = g.hooksAttr from rfl, hH] at hok
      simp [remove_grad_mask, Except.bind] at hok
  | some h0 =>
      rw [show ({ densification_postfix_step g
        { xyz := other.xyz, f_dc := other.features_dc,
          f_rest := other.features_rest, opacity := other.opacity,
          scaling := other.scaling, rotation := other.rotation } with
        mask := g.mask.map not ++
          List.replicate other.opacity.length true } : GStore Bool).hooksAttr
        = g.hooksAttr from rfl] at hok
      simp only [remove_grad_mask, hH, Except.bind] at hok
      simp only [apply_grad_mask] at hok
      split at hok
      case isFalse => exact absurd hok (by simp)
      case isTrue hcond =>
        rw [Except.ok.injEq] at hok
        subst hok
        have hwf2 : wf ({ densification_postfix_step g
            { xyz := other.xyz, f_dc := other.features_dc,
              f_rest := other.features_rest, opacity := other.opacity,
              scaling := other.scaling, rotation := other.rotation } with
            mask := g.mask.map not ++
              List.replicate other.opacity.length true } : GStore Bool) =
            true := by
          apply wf_postfix_mask g _ other.xyz.length _ hloc hwf rfl hodc
            horest hoop hosc horot
          rw [List.length_append, List.length_map, List.length_replicate,
            hm', hoop]
        exact ⟨hwf2, hloc⟩

/-- The structural operations of the density-control subsystem: append
via clone / split / population merge (each routed through
`densification_postfix`), and compact via `prune_points`. -/
inductive DOp where
  | clone (grads : List ℚ) (thr ext : ℚ)
  | split (grads : List ℚ) (thr ext : ℚ) (sample : Nat → V3 → V3)
  | merge (other : GStore Bool)
  | compact (m : List Bool)

def applyOp (A : Act) (g : GStore Bool) : DOp → Except String (GStore Bool)
  | .clone grads thr ext => densify_and_clone A g grads thr ext
  | .split grads thr ext sample =>
      .ok (densify_and_split A sample g grads thr ext 2)
  | .merge other => concat_gaussians g other
  | .compact m => .ok (prune_points g m)

/-- The shape conditions torch itself enforces at each call: gradient
tensors aligned with the population, a merge source whose own arrays are
aligned, a prune mask of the population's length. -/
def opValid (g : GStore Bool) : DOp → Bool
  | .clone grads _ _ => decide (grads.length = g.xyz.length)
  | .split grads _ _ _ => decide (grads.length ≤ g.xyz.length)
  | .merge other => wf other
  | .compact m => decide (m.length = g.xyz.length)

def runOps (A : Act) : List DOp → GStore Bool → Except String (GStore Bool)
  | [], g => .ok g
  | op :: rest, g => (applyOp A g op).bind (runOps A rest)

/-- Each operation of a run satisfies `opValid` at the state it executes
in. -/
def validSeq (A : Act) : List DOp → GStore Bool → Bool
  | [], _ => true
  | op :: rest, g =>
      opValid g op &&
        (match applyOp A g op with
         | .ok g' => validSeq A rest g'
         | .error _ => true)

theorem applyOp_wf (A : Act) (g g' : GStore Bool) (op : DOp)
    (hloc : g.localize = false) (hwf : wf g = true)
    (hv : opValid g op = true) (hok : applyOp A g op = .ok g') :
    wf g' = true ∧ g'.localize = false := by
  cases op with
  | clone grads thr ext => exact wf_clone A g g' grads thr ext hloc hwf hok
  | split grads thr ext sample =>
      simp only [applyOp, Except.ok.injEq] at hok
      subst hok
      exact wf_split A sample g grads thr ext 2 hloc hwf
  | merge other =>
      exact wf_merge g other g' hloc hwf (by simpa [opValid] using hv) hok
  | compact m =>
      simp only [applyOp, Except.ok.injEq] at hok
      subst hok
      exact ⟨wf_prune g m hwf, hloc⟩

/-- C1: along every valid sequence of append (clone / split / merge via
`densification_postfix`) and compact (`prune_points`) operations that
completes successfully, the length invariant holds after each operation:
every attribute array, the optimizable mask, the auxiliary arrays and
every present optimizer moment buffer share the population's length.
(The invariant after every intermediate operation follows because every
prefix of a successful valid run is itself a successful valid run.) -/
theorem density_ops_preserve_wf (A : Act) (ops : List DOp)
    (g g' : GStore Bool) (hloc : g.localize = false) (hwf : wf g = true)
    (hv : validSeq A ops g = true) (hok : runOps A ops g = .ok g') :
    wf g' = true ∧ g'.localize = false := by
  induction ops generalizing g with
  | nil =>
      simp only [runOps, Except.ok.injEq] at hok
      subst hok
      exact ⟨hwf, hloc⟩
  | cons op rest ih =>
      simp only [validSeq, Bool.and_eq_true] at hv
      simp only [runOps] at hok
      cases hstep : applyOp A g op with
      | error e => rw [hstep] at hok; simp [Except.bind] at hok
      | ok g1 =>
          rw [hstep] at hok
          simp only [Except.bind] at hok
          obtain ⟨hw1, hl1⟩ := applyOp_wf A g g1 op hloc hwf hv.1 hstep
          have hv1 : validSeq A rest g1 = true := by
            have := hv.2
            rw [hstep] at this
            exact this
          exact ih g1 hl1 hw1 hv1 hok

/-- A small concrete operation sequence: compact keeping the row, clone
it, then split. -/
def c1ops : List DOp :=
  [.compact [false], .clone [1] 1 1000,
   .split [1, 1] 1 100 (fun _ _ => v3zero)]

def c1res : GStore Bool := ((runOps act0 c1ops st1).toOption).getD st1

/-- Witness for the C1 theorem: the invariant holds after the concrete
run `c1ops` on `st1`. -/
theorem density_ops_preserve_wf_witness : wf c1res = true :=
  (density_ops_preserve_wf act0 c1ops st1 c1res rfl (by decide)
    (by with_unfolding_all decide) (by with_unfolding_all rfl)).1

/-- The persisted columns of a store whose `features_dc` rows have width
1 and whose `features_rest` rows have width 8 (`max_degree = 2`),
spelled out entry by entry. -/
def saveExplicit (g : GStore μ) : List (String × List ℚ) :=
  [("x", g.xyz.map (proj3 0)),
   ("y", g.xyz.map (proj3 1)),
   ("z", g.xyz.map (proj3 2)),
   ("nx", g.xyz.map (fun _ => (0 : ℚ))),
   ("ny", g.xyz.map (fun _ => (0 : ℚ))),
   ("nz", g.xyz.map (fun _ => (0 : ℚ))),
   ("f_dc_0", g.features_dc.map (fun r => proj3 0 (r.getD 0 v3zero))),
   ("f_dc_1", g.features_dc.map (fun r => proj3 1 (r.getD 0 v3zero))),
   ("f_dc_2", g.features_dc.map (fun r => proj3 2 (r.getD 0 v3zero))),
   ("f_rest_0", g.features_rest.map (fun r => proj3 0 (r.getD 0 v3zero))),
   ("f_rest_1", g.features_rest.map (fun r => proj3 0 (r.getD 1 v3zero))),
   ("f_rest_2", g.features_rest.map (fun r => proj3 0 (r.getD 2 v3zero))),
   ("f_rest_3", g.features_rest.map (fun r => proj3 0 (r.getD 3 v3zero))),
   ("f_rest_4", g.features_rest.map (fun r => proj3 0 (r.getD 4 v3zero))),
   ("f_rest_5", g.features_rest.map (fun r => proj3 0 (r.getD 5 v3zero))),
   ("f_rest_6", g.features_rest.map (fun r => proj3 0 (r.getD 6 v3zero))),
   ("f_rest_7", g.features_rest.map (fun r => proj3 0 (r.getD 7 v3zero))),
   ("f_rest_8", g.features_rest.map (fun r => proj3 1 (r.getD 0 v3zero))),
   ("f_rest_9", g.features_rest.map (fun r => proj3 1 (r.getD 1 v3zero))),
   ("f_rest_10", g.features_rest.map (fun r => proj3 1 (r.getD 2 v3zero))),
   ("f_rest_11", g.features_rest.map (fun r => proj3 1 (r.getD 3 v3zero))),
   ("f_rest_12", g.features_rest.map (fun r => proj3 1 (r.getD 4 v3zero))),
   ("f_rest_13", g.features_rest.map (fun r => proj3 1 (r.getD 5 v3zero))),
   ("f_rest_14", g.features_rest.map (fun r => proj3 1 (r.getD 6 v3zero))),
   ("f_rest_15", g.features_rest.map (fun r => proj3 1 (r.getD 7 v3zero))),
   ("f_rest_16", g.features_rest.map (fun r => proj3 2 (r.getD 0 v3zero))),
   ("f_rest_17", g.features_rest.map (fun r => proj3 2 (r.getD 1 v3zero))),
   ("f_rest_18", g.features_rest.map (fun r => proj3 2 (r.getD 2 v3zero))),
   ("f_rest_19", g.features_rest.map (fun r => proj3 2 (r.getD 3 v3zero))),
   ("f_rest_20", g.features_rest.map (fun r => proj3 2 (r.getD 4 v3zero))),
   ("f_rest_21", g.features_rest.map (fun r => proj3 2 (r.getD 5 v3zero))),
   ("f_rest_22", g.features_rest.map (fun r => proj3 2 (r.getD 6 v3zero))),
   ("f_rest_23", g.features_rest.map (fun r => proj3 2 (r.getD 7 v3zero))),
   ("opacity", g.opacity),
   ("scale_0", g.scaling.map (proj3 0)),
   ("scale_1", g.scaling.map (proj3 1)),
   ("scale_2", g.scaling.map (proj3 2)),
   ("rot_0", g.rotation.map (proj4 0)),
   ("rot_1", g.rotation.map (proj4 1)),
   ("rot_2", g.rotation.map (proj4 2)),
   ("rot_3", g.rotation.map (proj4 3))]

theorem save_ply_explicit (g : GStore μ)
    (hd : (g.features_dc.headD []).length = 1)
    (hk : (g.features_rest.headD []).length = 8) :
    save_ply g = ⟨saveExplicit g⟩ := by
  simp only [save_ply, construct_list_of_attributes, saveCols, hd, hk]
  rfl

theorem getD_map_lt (f : α → β) (xs : List α) (d : β) {i : Nat}
    (hi : i < xs.length) : (xs.map f).getD i d = f xs[i] := by
  rw [List.getD_eq_getElem?_getD, List.getElem?_map,
    List.getElem?_eq_getElem hi, Option.map_some', Option.getD_some]

theorem getD_lt (xs : List α) (d : α) {i : Nat} (hi : i < xs.length) :
    xs.getD i d = xs[i] := by
  rw [List.getD_eq_getElem?_getD, List.getElem?_eq_getElem hi,
    Option.getD_some]

theorem range_map_eq {n : Nat} {xs : List α} (F : Nat → α)
    (hn : n = xs.length) (h : ∀ i, (hi : i < xs.length) → F i = xs[i]) :
    (List.range n).map F = xs := by
  subst hn
  apply List.ext_getElem?
  intro i
  by_cases hi : i < xs.length
  · rw [List.getElem?_map, List.getElem?_range hi, Option.map_some',
      h i hi, List.getElem?_eq_getElem hi]
  · rw [List.getElem?_map,
      List.getElem?_eq_none (by simpa using Nat.le_of_not_lt hi),
      List.getElem?_eq_none (Nat.le_of_not_lt hi), Option.map_none']

theorem eq_singleton_of_length_one {l : List α} (d : α)
    (h : l.length = 1) : l = [l.getD 0 d] := by
  cases l with
  | nil => simp at h
  | cons a t =>
      cases t with
      | nil => rfl
      | cons b t' => simp at h
/-- The 38 field names `save_ply` writes for `d = 1`, `K = 8`. -/
def namesAll : List String :=
  ["x", "y", "z", "nx", "ny", "nz", "f_dc_0", "f_dc_1", "f_dc_2", "f_rest_0", "f_rest_1", "f_rest_2", "f_rest_3", "f_rest_4", "f_rest_5", "f_rest_6", "f_rest_7", "f_rest_8", "f_rest_9", "f_rest_10", "f_rest_11", "f_rest_12", "f_rest_13", "f_rest_14", "f_rest_15", "f_rest_16", "f_rest_17", "f_rest_18", "f_rest_19", "f_rest_20", "f_rest_21", "f_rest_22", "f_rest_23", "opacity", "scale_0", "scale_1", "scale_2", "rot_0", "rot_1", "rot_2", "rot_3"]

def frNames : List String :=
  ["f_rest_0", "f_rest_1", "f_rest_2", "f_rest_3", "f_rest_4", "f_rest_5", "f_rest_6", "f_rest_7", "f_rest_8", "f_rest_9", "f_rest_10", "f_rest_11", "f_rest_12", "f_rest_13", "f_rest_14", "f_rest_15", "f_rest_16", "f_rest_17", "f_rest_18", "f_rest_19", "f_rest_20", "f_rest_21", "f_rest_22", "f_rest_23"]

def scNames : List String := ["scale_0", "scale_1", "scale_2"]

def rtNames : List String := ["rot_0", "rot_1", "rot_2", "rot_3"]

/-- The 24 `f_rest_*` columns in file (= sorted) order. -/
def restColsE (g : GStore μ) : List (List ℚ) :=
  [g.features_rest.map (fun r => proj3 0 (r.getD 0 v3zero)),
   g.features_rest.map (fun r => proj3 0 (r.getD 1 v3zero)),
   g.features_rest.map (fun r => proj3 0 (r.getD 2 v3zero)),
   g.features_rest.map (fun r => proj3 0 (r.getD 3 v3zero)),
   g.features_rest.map (fun r => proj3 0 (r.getD 4 v3zero)),
   g.features_rest.map (fun r => proj3 0 (r.getD 5 v3zero)),
   g.features_rest.map (fun r => proj3 0 (r.getD 6 v3zero)),
   g.features_rest.map (fun r => proj3 0 (r.getD 7 v3zero)),
   g.features_rest.map (fun r => proj3 1 (r.getD 0 v3zero)),
   g.features_rest.map (fun r => proj3 1 (r.getD 1 v3zero)),
   g.features_rest.map (fun r => proj3 1 (r.getD 2 v3zero)),
   g.features_rest.map (fun r => proj3 1 (r.getD 3 v3zero)),
   g.features_rest.map (fun r => proj3 1 (r.getD 4 v3zero)),
   g.features_rest.map (fun r => proj3 1 (r.getD 5 v3zero)),
   g.features_rest.map (fun r => proj3 1 (r.getD 6 v3zero)),
   g.features_rest.map (fun r => proj3 1 (r.getD 7 v3zero)),
   g.features_rest.map (fun r => proj3 2 (r.getD 0 v3zero)),
   g.features_rest.map (fun r => proj3 2 (r.getD 1 v3zero)),
   g.features_rest.map (fun r => proj3 2 (r.getD 2 v3zero)),
   g.features_rest.map (fun r => proj3 2 (r.getD 3 v3zero)),
   g.features_rest.map (fun r => proj3 2 (r.getD 4 v3zero)),
   g.features_rest.map (fun r => proj3 2 (r.getD 5 v3zero)),
   g.features_rest.map (fun r => proj3 2 (r.getD 6 v3zero)),
   g.features_rest.map (fun r => proj3 2 (r.getD 7 v3zero))]

theorem savedNames (g : GStore μ) :
    (saveExplicit g).map Prod.fst = namesAll := by
  unfold saveExplicit namesAll; rfl

theorem frF : namesAll.filter (fun s => strStartsWith s "f_rest_") = frNames := by
  decide

theorem scF : namesAll.filter (fun s => strStartsWith s "scale_") = scNames := by
  decide

theorem rtF : namesAll.filter (fun s => strStartsWith s "rot") = rtNames := by
  decide

theorem frS : sortByName frNames = frNames := by
  decide

theorem scS : sortByName scNames = scNames := by
  decide

theorem rtS : sortByName rtNames = rtNames := by
  decide

theorem frL : frNames.length = 24 := rfl

theorem scL : scNames.length = 3 := rfl

theorem rtL : rtNames.length = 4 := rfl

theorem scG0 : scNames.getD 0 "" = "scale_0" := rfl

theorem scG1 : scNames.getD 1 "" = "scale_1" := rfl

theorem scG2 : scNames.getD 2 "" = "scale_2" := rfl

theorem rtG0 : rtNames.getD 0 "" = "rot_0" := rfl

theorem rtG1 : rtNames.getD 1 "" = "rot_1" := rfl

theorem rtG2 : rtNames.getD 2 "" = "rot_2" := rfl

theorem rtG3 : rtNames.getD 3 "" = "rot_3" := rfl

theorem degV : intSqrt ((24 + 3) / 3) - 1 = 2 := by decide

theorem kkV : (2 + 1) ^ 2 - 1 = 8 := by decide

theorem exbind_ok {α β : Type} (a : α) (f : α → Except String β) :
    (Except.ok a >>= f) = f a := rfl

theorem rc_x (g : GStore μ) :
    reqCol (⟨saveExplicit g⟩ : PlyFile) "x" = Except.ok
      (g.xyz.map (proj3 0)) := by
  unfold reqCol colOf saveExplicit; rfl

theorem rc_y (g : GStore μ) :
    reqCol (⟨saveExplicit g⟩ : PlyFile) "y" = Except.ok
      (g.xyz.map (proj3 1)) := by
  unfold reqCol colOf saveExplicit; rfl

theorem rc_z (g : GStore μ) :
    reqCol (⟨saveExplicit g⟩ : PlyFile) "z" = Except.ok
      (g.xyz.map (proj3 2)) := by
  unfold reqCol colOf saveExplicit; rfl

theorem rc_op (g : GStore μ) :
    reqCol (⟨saveExplicit g⟩ : PlyFile) "opacity" = Except.ok
      (g.opacity) := by
  unfold reqCol colOf saveExplicit; rfl

theorem rc_dc0 (g : GStore μ) :
    reqCol (⟨saveExplicit g⟩ : PlyFile) "f_dc_0" = Except.ok
      (g.features_dc.map (fun r => proj3 0 (r.getD 0 v3zero))) := by
  unfold reqCol colOf saveExplicit; rfl

theorem rc_dc1 (g : GStore μ) :
    reqCol (⟨saveExplicit g⟩ : PlyFile) "f_dc_1" = Except.ok
      (g.features_dc.map (fun r => proj3 1 (r.getD 0 v3zero))) := by
  unfold reqCol colOf saveExplicit; rfl

theorem rc_dc2 (g : GStore μ) :
    reqCol (⟨saveExplicit g⟩ : PlyFile) "f_dc_2" = Except.ok
      (g.features_dc.map (fun r => proj3 2 (r.getD 0 v3zero))) := by
  unfold reqCol colOf saveExplicit; rfl

theorem rc_fr0 (g : GStore μ) :
    reqCol (⟨saveExplicit g⟩ : PlyFile) "f_rest_0" = Except.ok
      (g.features_rest.map (fun r => proj3 0 (r.getD 0 v3zero))) := by
  unfold reqCol colOf saveExplicit; rfl

theorem rc_fr1 (g : GStore μ) :
    reqCol (⟨saveExplicit g⟩ : PlyFile) "f_rest_1" = Except.ok
      (g.features_rest.map (fun r => proj3 0 (r.getD 1 v3zero))) := by
  unfold reqCol colOf saveExplicit; rfl

theorem rc_fr2 (g : GStore μ) :
    reqCol (⟨saveExplicit g⟩ : PlyFile) "f_rest_2" = Except.ok
      (g.features_rest.map (fun r => proj3 0 (r.getD 2 v3zero))) := by
  unfold reqCol colOf saveExplicit; rfl

theorem rc_fr3 (g : GStore μ) :
    reqCol (⟨saveExplicit g⟩ : PlyFile) "f_rest_3" = Except.ok
      (g.features_rest.map (fun r => proj3 0 (r.getD 3 v3zero))) := by
  unfold reqCol colOf saveExplicit; rfl

theorem rc_fr4 (g : GStore μ) :
    reqCol (⟨saveExplicit g⟩ : PlyFile) "f_rest_4" = Except.ok
      (g.features_rest.map (fun r => proj3 0 (r.getD 4 v3zero))) := by
  unfold reqCol colOf saveExplicit; rfl

theorem rc_fr5 (g : GStore μ) :
    reqCol (⟨saveExplicit g⟩ : PlyFile) "f_rest_5" = Except.ok
      (g.features_rest.map (fun r => proj3 0 (r.getD 5 v3zero))) := by
  unfold reqCol colOf saveExplicit; rfl

theorem rc_fr6 (g : GStore μ) :
    reqCol (⟨saveExplicit g⟩ : PlyFile) "f_rest_6" = Except.ok
      (g.features_rest.map (fun r => proj3 0 (r.getD 6 v3zero))) := by
  unfold reqCol colOf saveExplicit; rfl

theorem rc_fr7 (g : GStore μ) :
    reqCol (⟨saveExplicit g⟩ : PlyFile) "f_rest_7" = Except.ok
      (g.features_rest.map (fun r => proj3 0 (r.getD 7 v3zero))) := by
  unfold reqCol colOf saveExplicit; rfl

theorem rc_fr8 (g : GStore μ) :
    reqCol (⟨saveExplicit g⟩ : PlyFile) "f_rest_8" = Except.ok
      (g.features_rest.map (fun r => proj3 1 (r.getD 0 v3zero))) := by
  unfold reqCol colOf saveExplicit; rfl

theorem rc_fr9 (g : GStore μ) :
    reqCol (⟨saveExplicit g⟩ : PlyFile) "f_rest_9" = Except.ok
      (g.features_rest.map (fun r => proj3 1 (r.getD 1 v3zero))) := by
  unfold reqCol colOf saveExplicit; rfl

theorem rc_fr10 (g : GStore μ) :
    reqCol (⟨saveExplicit g⟩ : PlyFile) "f_rest_10" = Except.ok
      (g.features_rest.map (fun r => proj3 1 (r.getD 2 v3zero))) := by
  unfold reqCol colOf saveExplicit; rfl

theorem rc_fr11 (g : GStore μ) :
    reqCol (⟨saveExplicit g⟩ : PlyFile) "f_rest_11" = Except.ok
      (g.features_rest.map (fun r => proj3 1 (r.getD 3 v3zero))) := by
  unfold reqCol colOf saveExplicit; rfl

theorem rc_fr12 (g : GStore μ) :
    reqCol (⟨saveExplicit g⟩ : PlyFile) "f_rest_12" = Except.ok
      (g.features_rest.map (fun r => proj3 1 (r.getD 4 v3zero))) := by
  unfold reqCol colOf saveExplicit; rfl

theorem rc_fr13 (g : GStore μ) :
    reqCol (⟨saveExplicit g⟩ : PlyFile) "f_rest_13" = Except.ok
      (g.features_rest.map (fun r => proj3 1 (r.getD 5 v3zero))) := by
  unfold reqCol colOf saveExplicit; rfl

theorem rc_fr14 (g : GStore μ) :
    reqCol (⟨saveExplicit g⟩ : PlyFile) "f_rest_14" = Except.ok
      (g.features_rest.map (fun r => proj3 1 (r.getD 6 v3zero))) := by
  unfold reqCol colOf saveExplicit; rfl

theorem rc_fr15 (g : GStore μ) :
    reqCol (⟨saveExplicit g⟩ : PlyFile) "f_rest_15" = Except.ok
      (g.features_rest.map (fun r => proj3 1 (r.getD 7 v3zero))) := by
  unfold reqCol colOf saveExplicit; rfl

theorem rc_fr16 (g : GStore μ) :
    reqCol (⟨saveExplicit g⟩ : PlyFile) "f_rest_16" = Except.ok
      (g.features_rest.map (fun r => proj3 2 (r.getD 0 v3zero))) := by
  unfold reqCol colOf saveExplicit; rfl

theorem rc_fr17 (g : GStore μ) :
    reqCol (⟨saveExplicit g⟩ : PlyFile) "f_rest_17" = Except.ok
      (g.features_rest.map (fun r => proj3 2 (r.getD 1 v3zero))) := by
  unfold reqCol colOf saveExplicit; rfl

theorem rc_fr18 (g : GStore μ) :
    reqCol (⟨saveExplicit g⟩ : PlyFile) "f_rest_18" = Except.ok
      (g.features_rest.map (fun r => proj3 2 (r.getD 2 v3zero))) := by
  unfold reqCol colOf saveExplicit; rfl

theorem rc_fr19 (g : GStore μ) :
    reqCol (⟨saveExplicit g⟩ : PlyFile) "f_rest_19" = Except.ok
      (g.features_rest.map (fun r => proj3 2 (r.getD 3 v3zero))) := by
  unfold reqCol colOf saveExplicit; rfl

theorem rc_fr20 (g : GStore μ) :
    reqCol (⟨saveExplicit g⟩ : PlyFile) "f_rest_20" = Except.ok
      (g.features_rest.map (fun r => proj3 2 (r.getD 4 v3zero))) := by
  unfold reqCol colOf saveExplicit; rfl

theorem rc_fr21 (g : GStore μ) :
    reqCol (⟨saveExplicit g⟩ : PlyFile) "f_rest_21" = Except.ok
      (g.features_rest.map (fun r => proj3 2 (r.getD 5 v3zero))) := by
  unfold reqCol colOf saveExplicit; rfl

theorem rc_fr22 (g : GStore μ) :
    reqCol (⟨saveExplicit g⟩ : PlyFile) "f_rest_22" = Except.ok
      (g.features_rest.map (fun r => proj3 2 (r.getD 6 v3zero))) := by
  unfold reqCol colOf saveExplicit; rfl

theorem rc_fr23 (g : GStore μ) :
    reqCol (⟨saveExplicit g⟩ : PlyFile) "f_rest_23" = Except.ok
      (g.features_rest.map (fun r => proj3 2 (r.getD 7 v3zero))) := by
  unfold reqCol colOf saveExplicit; rfl

theorem rc_sc0 (g : GStore μ) :
    reqCol (⟨saveExplicit g⟩ : PlyFile) "scale_0" = Except.ok
      (g.scaling.map (proj3 0)) := by
  unfold reqCol colOf saveExplicit; rfl

theorem rc_sc1 (g : GStore μ) :
    reqCol (⟨saveExplicit g⟩ : PlyFile) "scale_1" = Except.ok
      (g.scaling.map (proj3 1)) := by
  unfold reqCol colOf saveExplicit; rfl

theorem rc_sc2 (g : GStore μ) :
    reqCol (⟨saveExplicit g⟩ : PlyFile) "scale_2" = Except.ok
      (g.scaling.map (proj3 2)) := by
  unfold reqCol colOf saveExplicit; rfl

theorem rc_rt0 (g : GStore μ) :
    reqCol (⟨saveExplicit g⟩ : PlyFile) "rot_0" = Except.ok
      (g.rotation.map (proj4 0)) := by
  unfold reqCol colOf saveExplicit; rfl

theorem rc_rt1 (g : GStore μ) :
    reqCol (⟨saveExplicit g⟩ : PlyFile) "rot_1" = Except.ok
      (g.rotation.map (proj4 1)) := by
  unfold reqCol colOf saveExplicit; rfl

theorem rc_rt2 (g : GStore μ) :
    reqCol (⟨saveExplicit g⟩ : PlyFile) "rot_2" = Except.ok
      (g.rotation.map (proj4 2)) := by
  unfold reqCol colOf saveExplicit; rfl

theorem rc_rt3 (g : GStore μ) :
    reqCol (⟨saveExplicit g⟩ : PlyFile) "rot_3" = Except.ok
      (g.rotation.map (proj4 3)) := by
  unfold reqCol colOf saveExplicit; rfl


set_option maxHeartbeats 1000000 in
theorem frMapM (g : GStore μ) :
    frNames.mapM (reqCol (⟨saveExplicit g⟩ : PlyFile)) =
      Except.ok (restColsE g) := by
  unfold frNames restColsE reqCol colOf saveExplicit
  rfl

/-- The store `load_ply_core` produces when fed the file `save_ply`
writes for a store with `d = 1`, `K = 8`. -/
def coreLoaded (g : GStore μ) (g0 : GStore ν) : GStore Bool :=
  { retypeMask g0 (List.replicate (g.xyz.map (proj3 0)).length true) with
    xyz := (List.range (g.xyz.map (proj3 0)).length).map
      (fun i => ((g.xyz.map (proj3 0)).getD i 0,
        (g.xyz.map (proj3 1)).getD i 0,
        (g.xyz.map (proj3 2)).getD i 0)),
    features_dc := (List.range (g.xyz.map (proj3 0)).length).map
      (fun i =>
        [((g.features_dc.map (fun r => proj3 0 (r.getD 0 v3zero))).getD i 0,
          (g.features_dc.map (fun r => proj3 1 (r.getD 0 v3zero))).getD i 0,
          (g.features_dc.map (fun r => proj3 2 (r.getD 0 v3zero))).getD i 0)]),
    features_rest := (List.range (g.xyz.map (proj3 0)).length).map
      (fun i => (List.range 8).map
        (fun j => (((restColsE g).getD j []).getD i 0,
          ((restColsE g).getD (8 + j) []).getD i 0,
          ((restColsE g).getD (2 * 8 + j) []).getD i 0))),
    opacity := g.opacity,
    scaling := (List.range (g.xyz.map (proj3 0)).length).map
      (fun i => ((g.scaling.map (proj3 0)).getD i 0,
        (g.scaling.map (proj3 1)).getD i 0,
        (g.scaling.map (proj3 2)).getD i 0)),
    rotation := (List.range (g.xyz.map (proj3 0)).length).map
      (fun i => ((g.rotation.map (proj4 0)).getD i 0,
        (g.rotation.map (proj4 1)).getD i 0,
        (g.rotation.map (proj4 2)).getD i 0,
        (g.rotation.map (proj4 3)).getD i 0)),
    active_sh_degree := 2,
    max_sh_degree := 2,
    tensorHooks := [] }

set_option maxHeartbeats 2000000 in
theorem load_save_core (g : GStore μ) (g0 : GStore ν)
    (hd : (g.features_dc.headD []).length = 1)
    (hk : (g.features_rest.headD []).length = 8) :
    load_ply_core g0 (save_ply g) = Except.ok (coreLoaded g g0) := by
  rw [save_ply_explicit g hd hk]
  unfold load_ply_core
  simp only [rc_x, rc_y, rc_z, rc_op, rc_dc0, rc_dc1, rc_dc2, exbind_ok,
    savedNames, frF, frS, frL, scF, scS, scL, rtF, rtS, rtL,
    degV, kkV, frMapM,
    scG0, scG1, scG2, rtG0, rtG1, rtG2, rtG3,
    rc_sc0, rc_sc1, rc_sc2, rc_rt0, rc_rt1, rc_rt2, rc_rt3,
    show ((24 : Nat) = 3 * 8) = True from by decide,
    show (((3 : Nat) = 3 ∧ (4 : Nat) = 4)) = True from by decide,
    if_true]
  rfl

theorem restColsE_getD0 (g : GStore μ) {j : Nat} (hj : j < 8) :
    (restColsE g).getD j [] =
      g.features_rest.map (fun r => proj3 0 (r.getD j v3zero)) := by
  interval_cases j <;> rfl

theorem restColsE_getD1 (g : GStore μ) {j : Nat} (hj : j < 8) :
    (restColsE g).getD (8 + j) [] =
      g.features_rest.map (fun r => proj3 1 (r.getD j v3zero)) := by
  interval_cases j <;> rfl

theorem restColsE_getD2 (g : GStore μ) {j : Nat} (hj : j < 8) :
    (restColsE g).getD (2 * 8 + j) [] =
      g.features_rest.map (fun r => proj3 2 (r.getD j v3zero)) := by
  interval_cases j <;> rfl

theorem coreLoaded_xyz (g : GStore μ) (g0 : GStore ν) :
    (coreLoaded g g0).xyz = g.xyz := by
  simp only [coreLoaded]
  apply range_map_eq
  · rw [List.length_map]
  · intro i hi
    rw [getD_map_lt _ _ _ hi, getD_map_lt _ _ _ hi, getD_map_lt _ _ _ hi]
    exact rfl

theorem coreLoaded_scaling (g : GStore μ) (g0 : GStore ν)
    (hscL : g.scaling.length = g.xyz.length) :
    (coreLoaded g g0).scaling = g.scaling := by
  simp only [coreLoaded]
  apply range_map_eq
  · rw [List.length_map, hscL]
  · intro i hi
    rw [getD_map_lt _ _ _ hi, getD_map_lt _ _ _ hi, getD_map_lt _ _ _ hi]
    exact rfl

theorem coreLoaded_rotation (g : GStore μ) (g0 : GStore ν)
    (hrtL : g.rotation.length = g.xyz.length) :
    (coreLoaded g g0).rotation = g.rotation := by
  simp only [coreLoaded]
  apply range_map_eq
  · rw [List.length_map, hrtL]
  · intro i hi
    rw [getD_map_lt _ _ _ hi, getD_map_lt _ _ _ hi, getD_map_lt _ _ _ hi,
      getD_map_lt _ _ _ hi]
    exact rfl

theorem coreLoaded_dc (g : GStore μ) (g0 : GStore ν)
    (hdcL : g.features_dc.length = g.xyz.length)
    (hdcW : ∀ r ∈ g.features_dc, r.length = 1) :
    (coreLoaded g g0).features_dc = g.features_dc := by
  simp only [coreLoaded]
  apply range_map_eq
  · rw [List.length_map, hdcL]
  · intro i hi
    have hr : (g.features_dc[i]).length = 1 :=
      hdcW _ (List.getElem_mem hi)
    rw [getD_map_lt _ _ _ hi, getD_map_lt _ _ _ hi, getD_map_lt _ _ _ hi]
    rw [getD_lt _ _ (by omega)]
    conv_rhs => rw [eq_singleton_of_length_one v3zero hr]
    rw [getD_lt _ _ (by omega)]
    exact rfl

theorem coreLoaded_rest (g : GStore μ) (g0 : GStore ν)
    (hfrL : g.features_rest.length = g.xyz.length)
    (hfrW : ∀ r ∈ g.features_rest, r.length = 8) :
    (coreLoaded g g0).features_rest = g.features_rest := by
  simp only [coreLoaded]
  apply range_map_eq
  · rw [List.length_map, hfrL]
  · intro i hi
    have hr : (g.features_rest[i]).length = 8 :=
      hfrW _ (List.getElem_mem hi)
    apply range_map_eq
    · omega
    · intro j hj
      have hj8 : j < 8 := by omega
      rw [restColsE_getD0 g hj8, restColsE_getD1 g hj8, restColsE_getD2 g hj8]
      rw [getD_map_lt _ _ _ hi, getD_map_lt _ _ _ hi, getD_map_lt _ _ _ hi]
      rw [getD_lt _ _ (show j < (g.features_rest[i]).length by omega)]
      exact rfl

/-- C9: saving a store with `save_ply` and reading the file back with
`load_ply` reproduces identical raw (unactivated) position, color_dc,
color_rest, opacity, scale and rotation values, and `load_ply` infers
the same `max_degree` from the count of `f_rest_*` fields via
`K = (deg+1)^2 - 1`; here for stores with `max_degree = 2` (`K = 8` rest
coefficients per channel) and at least 10 primitives. -/
theorem save_load_roundtrip (g : GStore Bool) (g0 : GStore ν)
    (hP : 10 ≤ g.xyz.length)
    (hdcL : g.features_dc.length = g.xyz.length)
    (hfrL : g.features_rest.length = g.xyz.length)
    (hscL : g.scaling.length = g.xyz.length)
    (hrtL : g.rotation.length = g.xyz.length)
    (hdcW : ∀ r ∈ g.features_dc, r.length = 1)
    (hfrW : ∀ r ∈ g.features_rest, r.length = 8)
    (hdeg : g.max_sh_degree = 2) :
    ∃ g', load_ply g0 (save_ply g) = Except.ok g' ∧
      g'.xyz = g.xyz ∧ g'.features_dc = g.features_dc ∧
      g'.features_rest = g.features_rest ∧ g'.opacity = g.opacity ∧
      g'.scaling = g.scaling ∧ g'.rotation = g.rotation ∧
      g'.max_sh_degree = g.max_sh_degree ∧
      g'.mask = List.replicate g.xyz.length true := by
  have hd : (g.features_dc.headD []).length = 1 := by
    cases hfd : g.features_dc with
    | nil => rw [hfd] at hdcL; simp at hdcL; omega
    | cons a t =>
        exact hdcW a (by rw [hfd]; exact List.mem_cons_self a t)
  have hk : (g.features_rest.headD []).length = 8 := by
    cases hfr : g.features_rest with
    | nil => rw [hfr] at hfrL; simp at hfrL; omega
    | cons a t =>
        exact hfrW a (by rw [hfr]; exact List.mem_cons_self a t)
  have hcore := load_save_core g g0 hd hk
  have hmask : (coreLoaded g g0).mask =
      List.replicate g.xyz.length true := by
    show List.replicate (g.xyz.map (proj3 0)).length true = _
    rw [List.length_map]
  have hcond : (coreLoaded g g0).mask.length = (coreLoaded g g0).xyz.length := by
    simp [coreLoaded, retypeMask]
  refine ⟨{ retypeMask (coreLoaded g g0) ((coreLoaded g g0).mask) with
      hookGen := (coreLoaded g g0).hookGen + 1,
      hooksAttr := some (coreLoaded g g0).hookGen,
      tensorHooks := (coreLoaded g g0).tensorHooks ++
        [(coreLoaded g g0).hookGen] }, ?_, ?_, ?_, ?_, ?_, ?_, ?_, ?_, ?_⟩
  · unfold load_ply
    rw [hcore]
    show apply_grad_mask (coreLoaded g g0) ((coreLoaded g g0).mask) = _
    unfold apply_grad_mask
    rw [if_pos hcond]
  · exact coreLoaded_xyz g g0
  · exact coreLoaded_dc g g0 hdcL hdcW
  · exact coreLoaded_rest g g0 hfrL hfrW
  · exact rfl
  · exact coreLoaded_scaling g g0 hscL
  · exact coreLoaded_rotation g g0 hrtL
  · rw [hdeg]; exact rfl
  · exact hmask

/-- A store with 10 primitives, `d = 1` and `K = 8` (`max_degree = 2`). -/
def w9 : GStore Bool :=
  { xyz := (List.range 10).map (fun i => ((i : ℚ), (i : ℚ) + 1, 3)),
    features_dc := List.replicate 10 [(1, 0, 0)],
    features_rest :=
      List.replicate 10 ((List.range 8).map (fun i => ((i : ℚ), 0, 1))),
    scaling := List.replicate 10 (1, 1, 2),
    rotation := List.replicate 10 (1, 0, 0, 0),
    opacity := List.replicate 10 3,
    max_radii2D := List.replicate 10 0,
    xyz_gradient_accum := List.replicate 10 0,
    denom := List.replicate 10 0,
    mask := List.replicate 10 true,
    densi_mask := List.replicate 10 false,
    opt := ⟨none, none, none, none, none, none⟩,
    percent_dense := 1 / 100,
    localize := false,
    active_sh_degree := 2,
    max_sh_degree := 2,
    hookGen := 0,
    hooksAttr := none,
    tensorHooks := [] }

/-- Witness for C9: the round trip at the concrete 10-primitive store
`w9`. -/
theorem save_load_roundtrip_witness :
    ∃ g', load_ply st1 (save_ply w9) = Except.ok g' ∧
      g'.xyz = w9.xyz ∧ g'.features_dc = w9.features_dc ∧
      g'.features_rest = w9.features_rest ∧ g'.opacity = w9.opacity ∧
      g'.scaling = w9.scaling ∧ g'.rotation = w9.rotation ∧
      g'.max_sh_degree = w9.max_sh_degree ∧
      g'.mask = List.replicate w9.xyz.length true :=
  save_load_roundtrip w9 st1 (by decide) (by decide) (by decide)
    (by decide) (by decide) (by decide) (by decide) (by decide)
